import Mathlib

/-!
Verification of the FinanceTracker data-access layer.

The development shallowly embeds the two source files:
* `src/lib/supabase.ts` — the data-access façade (typed CRUD per entity,
  two analytics queries, and a CSV export helper);
* `supabase/migrations/20250611100206_summer_manor.sql` — the `budgets`
  table: `CHECK (budget_limit > 0)`, `numeric(12,2)` storage, row-level
  security policies (`auth.uid() = user_id` for select/insert/update/delete)
  and the `handle_updated_at` trigger.

The backend (PostgREST over Postgres) is modelled as a pure state machine
over an in-memory database.  Each façade function takes the authenticated
identity `uid` (the value of `auth.uid()`), the database, and an optional
injected transport failure (the backend reply when the request itself
fails); it returns the `{ data, error }` shape that the TypeScript code
returns, and write operations additionally return the new database state.
Tables for entities other than `budgets` have no migration in the
repository; their row-level-security policies and `updated_at` triggers
are modelled from the spec (sections 3 and 6), which states every table
carries the same owner-only policies and server-managed timestamps.
Timestamps are modelled as natural numbers, SQL `date` values as
year/month/day triples, and `numeric(12,2)` amounts as rationals rounded
to cents (half away from zero, as Postgres rounds `numeric`).
-/

/-- A PostgREST/ GoTrue error object: a kind + message pair.  The façade
never inspects it, so the two fields are enough. -/
structure PGError where
  code : String
  message : String
deriving DecidableEq

/-- Error produced when a row violates a row-level-security policy
(Postgres SQLSTATE 42501). -/
def rlsViolation : PGError :=
  ⟨"42501", "new row violates row-level security policy"⟩

/-- Error produced when a row violates a CHECK constraint
(Postgres SQLSTATE 23514). -/
def checkViolation : PGError :=
  ⟨"23514", "new row for relation violates check constraint"⟩

/-- Error produced by PostgREST `.single()` when the result set does not
have exactly one row. -/
def singleRowError : PGError :=
  ⟨"PGRST116", "JSON object requested, multiple (or no) rows returned"⟩

/-- A calendar date (the value of a SQL `date` column), year/month/day,
month 1-based. -/
structure PDate where
  year : Int
  month : Nat
  day : Nat
deriving DecidableEq

/-- Date comparison, lexicographic on year, month, day: the order Postgres
uses for `date` columns (both for `gte` filters and `order by`). -/
def PDate.leb (a b : PDate) : Bool :=
  a.year < b.year ||
    (a.year == b.year &&
      (a.month < b.month || (a.month == b.month && a.day ≤ b.day)))

/-- Gregorian leap year. -/
def isLeap (y : Int) : Bool :=
  (y % 4 == 0 && y % 100 != 0) || y % 400 == 0

/-- Number of days of a month (month 1-based). -/
def daysInMonth (y : Int) (m : Nat) : Nat :=
  if m == 2 then (if isLeap y then 29 else 28)
  else if m == 4 || m == 6 || m == 9 || m == 11 then 30
  else 31

/-- The date computed by `getMonthlyData`'s prologue
`sixMonthsAgo.setMonth(sixMonthsAgo.getMonth() - 6)` followed by
`toISOString().split('T')[0]` (the clock is taken at UTC date
granularity).  JavaScript `setMonth` keeps the day-of-month and, when the
target month is shorter, rolls the excess days into the following month;
since exactly 6 is subtracted, the 0-based month index `month - 1 - 6`
lies in `[-6, 5]`, so year normalisation is a single borrow. -/
def sixMonthsAgo (d : PDate) : PDate :=
  let m0 : Int := (d.month : Int) - 1 - 6
  let y : Int := if m0 < 0 then d.year - 1 else d.year
  let m : Nat := if m0 < 0 then (m0 + 12).toNat + 1 else m0.toNat + 1
  let dim : Nat := daysInMonth y m
  if d.day ≤ dim then ⟨y, m, d.day⟩
  else if m == 12 then ⟨y + 1, 1, d.day - dim⟩
  else ⟨y, m + 1, d.day - dim⟩

/-- Zero-pad a natural number to two digits. -/
def pad2 (n : Nat) : String :=
  if n < 10 then "0" ++ toString n else toString n

/-- Zero-pad a natural number to four digits. -/
def pad4 (n : Nat) : String :=
  if n < 10 then "000" ++ toString n
  else if n < 100 then "00" ++ toString n
  else if n < 1000 then "0" ++ toString n
  else toString n

/-- The `YYYY-MM-DD` rendering of a date, as produced by
`toISOString().split('T')[0]`. -/
def isoDate (d : PDate) : String :=
  pad4 d.year.toNat ++ "-" ++ pad2 d.month ++ "-" ++ pad2 d.day

/-- Floor of a rational number, computed on the normalised fraction. -/
def ratFloor (q : Rat) : Int :=
  q.num.fdiv (q.den : Int)

/-- Storage into a `numeric(12,2)` column: round to two decimal places,
half away from zero (Postgres `numeric` rounding). -/
def roundCents (q : Rat) : Rat :=
  if q < 0 then -((ratFloor (-q * 100 + 1/2) : Rat) / 100)
  else ((ratFloor (q * 100 + 1/2) : Rat) / 100)

/-- The two user categories of `UserProfile.user_type`
(`'freelancer' | 'e-commerce'`). -/
inductive UserType where
  | freelancer
  | ecommerce
deriving DecidableEq

/-- Row of the implicit `user_profiles` table (interface `UserProfile`). -/
structure UserProfile where
  id : String
  name : String
  user_type : UserType
  created_at : Nat
  updated_at : Nat
deriving DecidableEq

/-- Row of the `income` table (interface `Income`). -/
structure Income where
  id : String
  user_id : String
  amount : Rat
  source : String
  date : PDate
  category : String
  notes : String
  created_at : Nat
  updated_at : Nat
deriving DecidableEq

/-- Row of the `expenses` table (interface `Expense`). -/
structure Expense where
  id : String
  user_id : String
  amount : Rat
  vendor : String
  date : PDate
  category : String
  notes : String
  created_at : Nat
  updated_at : Nat
deriving DecidableEq

/-- Row of the `investments` table (interface `Investment`). -/
structure Investment where
  id : String
  user_id : String
  type : String
  amount : Rat
  date : PDate
  platform : String
  notes : String
  created_at : Nat
  updated_at : Nat
deriving DecidableEq

/-- Row of the `savings` table (interface `SavingsGoal`). -/
structure SavingsGoal where
  id : String
  user_id : String
  goal_name : String
  target_amount : Rat
  deadline : Option PDate
  current_amount : Rat
  notes : String
  created_at : Nat
  updated_at : Nat
deriving DecidableEq

/-- Row of the `budgets` table (interface `Budget`; columns of the
migration). -/
structure Budget where
  id : String
  user_id : String
  category : String
  budget_limit : Rat
  start_date : PDate
  created_at : Nat
  updated_at : Nat
deriving DecidableEq

/-- The backend database: the five entity tables plus `user_profiles`. -/
structure DB where
  user_profiles : List UserProfile
  income : List Income
  expenses : List Expense
  investments : List Investment
  savings : List SavingsGoal
  budgets : List Budget
deriving DecidableEq

/-- Result shape `{ data, error }` of a façade call returning a list of
rows. -/
structure ListResp (ρ : Type) where
  data : Option (List ρ)
  error : Option PGError
deriving DecidableEq

/-- Result shape `{ data, error }` of a façade call ending in
`.single()`. -/
structure SingleResp (ρ : Type) where
  data : Option ρ
  error : Option PGError
deriving DecidableEq

/-- Result shape `{ error }` of a delete call. -/
structure ErrorResp where
  error : Option PGError
deriving DecidableEq

/-- Row-level-security filtered SELECT: the backend returns the rows
satisfying the query filter `pred` whose owner column equals the caller's
`auth.uid()` (policy `USING (auth.uid() = user_id)`). -/
def rlsSelect (uid : String) (owner : ρ → String) (pred : ρ → Bool)
    (rows : List ρ) : List ρ :=
  rows.filter (fun r => owner r == uid && pred r)

/-- Descending `order` clause: sort by a key, largest first. -/
def orderByDesc (key : ρ → κ) (leb : κ → κ → Bool) (rows : List ρ) : List ρ :=
  List.insertionSort (fun a b => leb (key b) (key a) = true) rows

/-- PostgREST `.single()`: exactly one row, otherwise error PGRST116. -/
def singleOf (l : List ρ) : Option ρ × Option PGError :=
  match l with
  | [r] => (some r, none)
  | _ => (none, some singleRowError)

/-- RLS-checked INSERT: the CHECK constraint is evaluated on the stored
row, and the policy `WITH CHECK (auth.uid() = user_id)` rejects rows not
owned by the caller; on success the row is appended to the table. -/
def tableInsert (uid : String) (owner : ρ → String) (check : ρ → Bool)
    (newRow : ρ) (rows : List ρ) : (Option ρ × Option PGError) × List ρ :=
  if !check newRow then ((none, some checkViolation), rows)
  else if !(owner newRow == uid) then ((none, some rlsViolation), rows)
  else ((some newRow, none), rows ++ [newRow])

/-- RLS-checked UPDATE ... RETURNING, followed by `.single()`: rows
matching the `eq('id', id)` filter and the policy
`USING (auth.uid() = user_id)` are rewritten by `updRow`; the updated rows
must still satisfy the CHECK constraint and (the policy has no separate
`WITH CHECK`, so `USING` applies to the new rows too) the owner column
must still equal `auth.uid()`, otherwise the statement errors and nothing
changes.  Returns (`.single()` of the returned rows, new table). -/
def tableUpdate (uid : String) (getId : ρ → String) (owner : ρ → String)
    (check : ρ → Bool) (updRow : ρ → ρ) (id : String) (rows : List ρ) :
    (Option ρ × Option PGError) × List ρ :=
  let hit := fun r => getId r == id && owner r == uid
  let updated := (rows.filter hit).map updRow
  if updated.any (fun r => !check r) then ((none, some checkViolation), rows)
  else if updated.any (fun r => !(owner r == uid)) then
    ((none, some rlsViolation), rows)
  else (singleOf updated, rows.map (fun r => if hit r then updRow r else r))

/-- RLS-checked DELETE: removes the rows matching the `eq('id', id)`
filter that the policy `USING (auth.uid() = user_id)` lets the caller
see; deleting zero rows is not an error. -/
def tableDelete (uid : String) (getId : ρ → String) (owner : ρ → String)
    (id : String) (rows : List ρ) : List ρ :=
  rows.filter (fun r => !(getId r == id && owner r == uid))

/-- Payload of a GoTrue reply (`data: { user, session }`), user and
session carried as identifiers. -/
structure AuthData where
  user : Option String
  session : Option String
deriving DecidableEq

/-- Reply shape `{ data, error }` of the auth endpoints. -/
structure AuthResp where
  data : Option AuthData
  error : Option PGError
deriving DecidableEq

/-- Result shape `{ user, error }` of `getCurrentUser`. -/
structure UserResp where
  user : Option String
  error : Option PGError
deriving DecidableEq

/-- Façade `signUp`: delegates to `supabase.auth.signUp` (whose reply is
the `resp` argument) and returns its `{ data, error }` unchanged.  The
profile metadata and redirect target only shape the outgoing request. -/
def signUp (email password name : String) (userType : UserType)
    (resp : AuthResp) : AuthResp :=
  ⟨resp.data, resp.error⟩

/-- Façade `signInWithGoogle`: delegates to
`supabase.auth.signInWithOAuth` and returns its `{ data, error }`
unchanged. -/
def signInWithGoogle (resp : AuthResp) : AuthResp :=
  ⟨resp.data, resp.error⟩

/-- Façade `signIn`: delegates to `supabase.auth.signInWithPassword` and
returns its `{ data, error }` unchanged. -/
def signIn (email password : String) (resp : AuthResp) : AuthResp :=
  ⟨resp.data, resp.error⟩

/-- Façade `signOut`: delegates to `supabase.auth.signOut` and returns
`{ error }`. -/
def signOut (resp : AuthResp) : ErrorResp :=
  ⟨resp.error⟩

/-- Façade `getCurrentUser`: destructures `data: { user }` from
`supabase.auth.getUser` and returns `{ user, error }`. -/
def getCurrentUser (resp : AuthResp) : UserResp :=
  ⟨resp.data.bind (fun d => d.user), resp.error⟩

/-- Façade `getUserProfile`: select on `user_profiles` filtered by
`eq('id', userId)`, `.single()`.  The `user_profiles` row-level-security
policy is modelled from the spec (owner column is `id`). -/
def getUserProfile (uid userId : String) (db : DB) (fail : Option PGError) :
    SingleResp UserProfile :=
  match fail with
  | some e => ⟨none, some e⟩
  | none =>
    let s := singleOf (rlsSelect uid (fun p => p.id)
      (fun p => p.id == userId) db.user_profiles)
    ⟨s.1, s.2⟩

/-- `Partial<UserProfile>`: every field optional. -/
structure UserProfileUpdate where
  id : Option String
  name : Option String
  user_type : Option UserType
  created_at : Option Nat
  updated_at : Option Nat
deriving DecidableEq

/-- Application of a partial update to a `user_profiles` row.  The
`handle_updated_at` trigger (modelled from the spec for this table)
overwrites `updated_at` with the server time, whatever the client sent. -/
def applyUserProfileUpdate (u : UserProfileUpdate) (now : Nat)
    (r : UserProfile) : UserProfile :=
  ⟨u.id.getD r.id, u.name.getD r.name, u.user_type.getD r.user_type,
    u.created_at.getD r.created_at, now⟩

/-- Façade `updateUserProfile`: update on `user_profiles` filtered by
`eq('id', userId)`, `.select().single()`. -/
def updateUserProfile (uid userId : String) (updates : UserProfileUpdate)
    (now : Nat) (db : DB) (fail : Option PGError) :
    SingleResp UserProfile × DB :=
  match fail with
  | some e => (⟨none, some e⟩, db)
  | none =>
    let r := tableUpdate uid (fun p => p.id) (fun p => p.id) (fun _ => true)
      (applyUserProfileUpdate updates now) userId db.user_profiles
    (⟨r.1.1, r.1.2⟩, { db with user_profiles := r.2 })

/-- `Omit<Income, 'id' | 'created_at' | 'updated_at'>`. -/
structure NewIncome where
  user_id : String
  amount : Rat
  source : String
  date : PDate
  category : String
  notes : String
deriving DecidableEq

/-- `Partial<Income>`: every field optional. -/
structure IncomeUpdate where
  id : Option String
  user_id : Option String
  amount : Option Rat
  source : Option String
  date : Option PDate
  category : Option String
  notes : Option String
  created_at : Option Nat
  updated_at : Option Nat
deriving DecidableEq

/-- Application of a partial update to an `income` row; the `updated_at`
trigger (modelled from the spec for this table) overwrites `updated_at`
with the server time. -/
def applyIncomeUpdate (u : IncomeUpdate) (now : Nat) (r : Income) : Income :=
  ⟨u.id.getD r.id, u.user_id.getD r.user_id, u.amount.getD r.amount,
    u.source.getD r.source, u.date.getD r.date, u.category.getD r.category,
    u.notes.getD r.notes, u.created_at.getD r.created_at, now⟩

/-- Façade `getIncome`: select all `income` rows with
`eq('user_id', userId)`, ordered by `date` descending. -/
def getIncome (uid userId : String) (db : DB) (fail : Option PGError) :
    ListResp Income :=
  match fail with
  | some e => ⟨none, some e⟩
  | none => ⟨some (orderByDesc (fun r => r.date) PDate.leb
      (rlsSelect uid (fun r => r.user_id) (fun r => r.user_id == userId)
        db.income)), none⟩

/-- Façade `addIncome`: insert one row (server generates `newId` and the
timestamps), `.select().single()`. -/
def addIncome (uid : String) (income : NewIncome) (newId : String)
    (now : Nat) (db : DB) (fail : Option PGError) : SingleResp Income × DB :=
  match fail with
  | some e => (⟨none, some e⟩, db)
  | none =>
    let row : Income := ⟨newId, income.user_id, income.amount, income.source,
      income.date, income.category, income.notes, now, now⟩
    let r := tableInsert uid (fun r => r.user_id) (fun _ => true) row db.income
    (⟨r.1.1, r.1.2⟩, { db with income := r.2 })

/-- Façade `updateIncome`: partial update by `eq('id', id)`,
`.select().single()`. -/
def updateIncome (uid id : String) (updates : IncomeUpdate) (now : Nat)
    (db : DB) (fail : Option PGError) : SingleResp Income × DB :=
  match fail with
  | some e => (⟨none, some e⟩, db)
  | none =>
    let r := tableUpdate uid (fun r => r.id) (fun r => r.user_id)
      (fun _ => true) (applyIncomeUpdate updates now) id db.income
    (⟨r.1.1, r.1.2⟩, { db with income := r.2 })

/-- Façade `deleteIncome`: delete by `eq('id', id)`, returns only the
error status. -/
def deleteIncome (uid id : String) (db : DB) (fail : Option PGError) :
    ErrorResp × DB :=
  match fail with
  | some e => (⟨some e⟩, db)
  | none =>
    let t := tableDelete uid (fun r => r.id) (fun r => r.user_id) id db.income
    (⟨none⟩, { db with income := t })

/-- `Omit<Expense, 'id' | 'created_at' | 'updated_at'>`. -/
structure NewExpense where
  user_id : String
  amount : Rat
  vendor : String
  date : PDate
  category : String
  notes : String
deriving DecidableEq

/-- `Partial<Expense>`: every field optional. -/
structure ExpenseUpdate where
  id : Option String
  user_id : Option String
  amount : Option Rat
  vendor : Option String
  date : Option PDate
  category : Option String
  notes : Option String
  created_at : Option Nat
  updated_at : Option Nat
deriving DecidableEq

/-- Application of a partial update to an `expenses` row; the
`updated_at` trigger (modelled from the spec for this table) overwrites
`updated_at` with the server time. -/
def applyExpenseUpdate (u : ExpenseUpdate) (now : Nat) (r : Expense) :
    Expense :=
  ⟨u.id.getD r.id, u.user_id.getD r.user_id, u.amount.getD r.amount,
    u.vendor.getD r.vendor, u.date.getD r.date, u.category.getD r.category,
    u.notes.getD r.notes, u.created_at.getD r.created_at, now⟩

/-- Façade `getExpenses`: select all `expenses` rows with
`eq('user_id', userId)`, ordered by `date` descending. -/
def getExpenses (uid userId : String) (db : DB) (fail : Option PGError) :
    ListResp Expense :=
  match fail with
  | some e => ⟨none, some e⟩
  | none => ⟨some (orderByDesc (fun r => r.date) PDate.leb
      (rlsSelect uid (fun r => r.user_id) (fun r => r.user_id == userId)
        db.expenses)), none⟩

/-- Façade `addExpense`: insert one row, `.select().single()`. -/
def addExpense (uid : String) (expense : NewExpense) (newId : String)
    (now : Nat) (db : DB) (fail : Option PGError) : SingleResp Expense × DB :=
  match fail with
  | some e => (⟨none, some e⟩, db)
  | none =>
    let row : Expense := ⟨newId, expense.user_id, expense.amount,
      expense.vendor, expense.date, expense.category, expense.notes, now, now⟩
    let r := tableInsert uid (fun r => r.user_id) (fun _ => true) row
      db.expenses
    (⟨r.1.1, r.1.2⟩, { db with expenses := r.2 })

/-- Façade `updateExpense`: partial update by `eq('id', id)`,
`.select().single()`. -/
def updateExpense (uid id : String) (updates : ExpenseUpdate) (now : Nat)
    (db : DB) (fail : Option PGError) : SingleResp Expense × DB :=
  match fail with
  | some e => (⟨none, some e⟩, db)
  | none =>
    let r := tableUpdate uid (fun r => r.id) (fun r => r.user_id)
      (fun _ => true) (applyExpenseUpdate updates now) id db.expenses
    (⟨r.1.1, r.1.2⟩, { db with expenses := r.2 })

/-- Façade `deleteExpense`: delete by `eq('id', id)`. -/
def deleteExpense (uid id : String) (db : DB) (fail : Option PGError) :
    ErrorResp × DB :=
  match fail with
  | some e => (⟨some e⟩, db)
  | none =>
    let t := tableDelete uid (fun r => r.id) (fun r => r.user_id) id
      db.expenses
    (⟨none⟩, { db with expenses := t })

/-- `Omit<Investment, 'id' | 'created_at' | 'updated_at'>`. -/
structure NewInvestment where
  user_id : String
  type : String
  amount : Rat
  date : PDate
  platform : String
  notes : String
deriving DecidableEq

/-- `Partial<Investment>`: every field optional. -/
structure InvestmentUpdate where
  id : Option String
  user_id : Option String
  type : Option String
  amount : Option Rat
  date : Option PDate
  platform : Option String
  notes : Option String
  created_at : Option Nat
  updated_at : Option Nat
deriving DecidableEq

/-- Application of a partial update to an `investments` row; the
`updated_at` trigger (modelled from the spec for this table) overwrites
`updated_at` with the server time. -/
def applyInvestmentUpdate (u : InvestmentUpdate) (now : Nat)
    (r : Investment) : Investment :=
  ⟨u.id.getD r.id, u.user_id.getD r.user_id, u.type.getD r.type,
    u.amount.getD r.amount, u.date.getD r.date, u.platform.getD r.platform,
    u.notes.getD r.notes, u.created_at.getD r.created_at, now⟩

/-- Façade `getInvestments`: select all `investments` rows with
`eq('user_id', userId)`, ordered by `date` descending. -/
def getInvestments (uid userId : String) (db : DB) (fail : Option PGError) :
    ListResp Investment :=
  match fail with
  | some e => ⟨none, some e⟩
  | none => ⟨some (orderByDesc (fun r => r.date) PDate.leb
      (rlsSelect uid (fun r => r.user_id) (fun r => r.user_id == userId)
        db.investments)), none⟩

/-- Façade `addInvestment`: insert one row, `.select().single()`. -/
def addInvestment (uid : String) (investment : NewInvestment)
    (newId : String) (now : Nat) (db : DB) (fail : Option PGError) :
    SingleResp Investment × DB :=
  match fail with
  | some e => (⟨none, some e⟩, db)
  | none =>
    let row : Investment := ⟨newId, investment.user_id, investment.type,
      investment.amount, investment.date, investment.platform,
      investment.notes, now, now⟩
    let r := tableInsert uid (fun r => r.user_id) (fun _ => true) row
      db.investments
    (⟨r.1.1, r.1.2⟩, { db with investments := r.2 })

/-- Façade `updateInvestment`: partial update by `eq('id', id)`,
`.select().single()`. -/
def updateInvestment (uid id : String) (updates : InvestmentUpdate)
    (now : Nat) (db : DB) (fail : Option PGError) :
    SingleResp Investment × DB :=
  match fail with
  | some e => (⟨none, some e⟩, db)
  | none =>
    let r := tableUpdate uid (fun r => r.id) (fun r => r.user_id)
      (fun _ => true) (applyInvestmentUpdate updates now) id db.investments
    (⟨r.1.1, r.1.2⟩, { db with investments := r.2 })

/-- Façade `deleteInvestment`: delete by `eq('id', id)`. -/
def deleteInvestment (uid id : String) (db : DB) (fail : Option PGError) :
    ErrorResp × DB :=
  match fail with
  | some e => (⟨some e⟩, db)
  | none =>
    let t := tableDelete uid (fun r => r.id) (fun r => r.user_id) id
      db.investments
    (⟨none⟩, { db with investments := t })

/-- `Omit<SavingsGoal, 'id' | 'created_at' | 'updated_at'>`. -/
structure NewSavingsGoal where
  user_id : String
  goal_name : String
  target_amount : Rat
  deadline : Option PDate
  current_amount : Rat
  notes : String
deriving DecidableEq

/-- `Partial<SavingsGoal>`: every field optional.  The `deadline` column
is itself nullable, so its update value is a doubled option. -/
structure SavingsGoalUpdate where
  id : Option String
  user_id : Option String
  goal_name : Option String
  target_amount : Option Rat
  deadline : Option (Option PDate)
  current_amount : Option Rat
  notes : Option String
  created_at : Option Nat
  updated_at : Option Nat
deriving DecidableEq

/-- Application of a partial update to a `savings` row; the `updated_at`
trigger (modelled from the spec for this table) overwrites `updated_at`
with the server time. -/
def applySavingsGoalUpdate (u : SavingsGoalUpdate) (now : Nat)
    (r : SavingsGoal) : SavingsGoal :=
  ⟨u.id.getD r.id, u.user_id.getD r.user_id, u.goal_name.getD r.goal_name,
    u.target_amount.getD r.target_amount, u.deadline.getD r.deadline,
    u.current_amount.getD r.current_amount, u.notes.getD r.notes,
    u.created_at.getD r.created_at, now⟩

/-- Façade `getSavingsGoals`: select all `savings` rows with
`eq('user_id', userId)`, ordered by `created_at` descending. -/
def getSavingsGoals (uid userId : String) (db : DB) (fail : Option PGError) :
    ListResp SavingsGoal :=
  match fail with
  | some e => ⟨none, some e⟩
  | none => ⟨some (orderByDesc (fun r => r.created_at) Nat.ble
      (rlsSelect uid (fun r => r.user_id) (fun r => r.user_id == userId)
        db.savings)), none⟩

/-- Façade `addSavingsGoal`: insert one row, `.select().single()`. -/
def addSavingsGoal (uid : String) (goal : NewSavingsGoal) (newId : String)
    (now : Nat) (db : DB) (fail : Option PGError) :
    SingleResp SavingsGoal × DB :=
  match fail with
  | some e => (⟨none, some e⟩, db)
  | none =>
    let row : SavingsGoal := ⟨newId, goal.user_id, goal.goal_name,
      goal.target_amount, goal.deadline, goal.current_amount, goal.notes,
      now, now⟩
    let r := tableInsert uid (fun r => r.user_id) (fun _ => true) row
      db.savings
    (⟨r.1.1, r.1.2⟩, { db with savings := r.2 })

/-- Façade `updateSavingsGoal`: partial update by `eq('id', id)`,
`.select().single()`. -/
def updateSavingsGoal (uid id : String) (updates : SavingsGoalUpdate)
    (now : Nat) (db : DB) (fail : Option PGError) :
    SingleResp SavingsGoal × DB :=
  match fail with
  | some e => (⟨none, some e⟩, db)
  | none =>
    let r := tableUpdate uid (fun r => r.id) (fun r => r.user_id)
      (fun _ => true) (applySavingsGoalUpdate updates now) id db.savings
    (⟨r.1.1, r.1.2⟩, { db with savings := r.2 })

/-- Façade `deleteSavingsGoal`: delete by `eq('id', id)`. -/
def deleteSavingsGoal (uid id : String) (db : DB) (fail : Option PGError) :
    ErrorResp × DB :=
  match fail with
  | some e => (⟨some e⟩, db)
  | none =>
    let t := tableDelete uid (fun r => r.id) (fun r => r.user_id) id
      db.savings
    (⟨none⟩, { db with savings := t })

/-- `Omit<Budget, 'id' | 'created_at' | 'updated_at'>`. -/
structure NewBudget where
  user_id : String
  category : String
  budget_limit : Rat
  start_date : PDate
deriving DecidableEq

/-- `Partial<Budget>`: every field optional. -/
structure BudgetUpdate where
  id : Option String
  user_id : Option String
  category : Option String
  budget_limit : Option Rat
  start_date : Option PDate
  created_at : Option Nat
  updated_at : Option Nat
deriving DecidableEq

/-- Application of a partial update to a `budgets` row.  A new
`budget_limit` value is stored through the `numeric(12,2)` column, and
the `handle_updated_at` trigger (migration lines 74-85) overwrites
`updated_at` with the server time. -/
def applyBudgetUpdate (u : BudgetUpdate) (now : Nat) (r : Budget) : Budget :=
  ⟨u.id.getD r.id, u.user_id.getD r.user_id, u.category.getD r.category,
    (u.budget_limit.map roundCents).getD r.budget_limit,
    u.start_date.getD r.start_date, u.created_at.getD r.created_at, now⟩

/-- The CHECK constraint of the `budgets` table:
`CHECK (budget_limit > 0)` (migration line 28). -/
def budgetCheck (r : Budget) : Bool :=
  decide (0 < r.budget_limit)

/-- Façade `getBudgets`: select all `budgets` rows with
`eq('user_id', userId)`, ordered by `created_at` descending. -/
def getBudgets (uid userId : String) (db : DB) (fail : Option PGError) :
    ListResp Budget :=
  match fail with
  | some e => ⟨none, some e⟩
  | none => ⟨some (orderByDesc (fun r => r.created_at) Nat.ble
      (rlsSelect uid (fun r => r.user_id) (fun r => r.user_id == userId)
        db.budgets)), none⟩

/-- Façade `addBudget`: insert one row into `budgets` (the server
generates `newId` and the timestamps, the `budget_limit` value is stored
through the `numeric(12,2)` column and must pass the CHECK constraint),
`.select().single()`. -/
def addBudget (uid : String) (budget : NewBudget) (newId : String)
    (now : Nat) (db : DB) (fail : Option PGError) : SingleResp Budget × DB :=
  match fail with
  | some e => (⟨none, some e⟩, db)
  | none =>
    let row : Budget := ⟨newId, budget.user_id, budget.category,
      roundCents budget.budget_limit, budget.start_date, now, now⟩
    let r := tableInsert uid (fun r => r.user_id) budgetCheck row db.budgets
    (⟨r.1.1, r.1.2⟩, { db with budgets := r.2 })

/-- Façade `updateBudget`: partial update by `eq('id', id)`,
`.select().single()`. -/
def updateBudget (uid id : String) (updates : BudgetUpdate) (now : Nat)
    (db : DB) (fail : Option PGError) : SingleResp Budget × DB :=
  match fail with
  | some e => (⟨none, some e⟩, db)
  | none =>
    let r := tableUpdate uid (fun r => r.id) (fun r => r.user_id)
      budgetCheck (applyBudgetUpdate updates now) id db.budgets
    (⟨r.1.1, r.1.2⟩, { db with budgets := r.2 })

/-- Façade `deleteBudget`: delete by `eq('id', id)`. -/
def deleteBudget (uid id : String) (db : DB) (fail : Option PGError) :
    ErrorResp × DB :=
  match fail with
  | some e => (⟨some e⟩, db)
  | none =>
    let t := tableDelete uid (fun r => r.id) (fun r => r.user_id) id
      db.budgets
    (⟨none⟩, { db with budgets := t })

/-- Result shape of `getMonthlyData`: the two result lists are returned
uncombined, each with its own error field. -/
structure MonthlyData where
  incomeData : Option (List (Rat × PDate))
  expenseData : Option (List (Rat × PDate))
  incomeError : Option PGError
  expenseError : Option PGError
deriving DecidableEq

/-- Façade `getMonthlyData`: computes the six-months-ago cutoff once,
then runs one query on `income` and one on `expenses`, each selecting
`amount, date` with `eq('user_id', userId)` and `gte('date', cutoff)`,
and returns the four fields
`{ incomeData, expenseData, incomeError, expenseError }`.  Each query
carries its own injected-failure argument. -/
def getMonthlyData (uid userId : String) (today : PDate) (db : DB)
    (incomeFail expenseFail : Option PGError) : MonthlyData :=
  let cutoff := sixMonthsAgo today
  let inc : Option (List (Rat × PDate)) × Option PGError :=
    match incomeFail with
    | some e => (none, some e)
    | none => (some ((rlsSelect uid (fun r => r.user_id)
        (fun r => r.user_id == userId && PDate.leb cutoff r.date)
        db.income).map (fun r => (r.amount, r.date))), none)
  let ex : Option (List (Rat × PDate)) × Option PGError :=
    match expenseFail with
    | some e => (none, some e)
    | none => (some ((rlsSelect uid (fun r => r.user_id)
        (fun r => r.user_id == userId && PDate.leb cutoff r.date)
        db.expenses).map (fun r => (r.amount, r.date))), none)
  ⟨inc.1, ex.1, inc.2, ex.2⟩

/-- Façade `getExpensesByCategory`: one query on `expenses` selecting
`category, amount` with `eq('user_id', userId)`, unaggregated. -/
def getExpensesByCategory (uid userId : String) (db : DB)
    (fail : Option PGError) : ListResp (String × Rat) :=
  match fail with
  | some e => ⟨none, some e⟩
  | none => ⟨some ((rlsSelect uid (fun r => r.user_id)
      (fun r => r.user_id == userId) db.expenses).map
        (fun r => (r.category, r.amount))), none⟩

/-- A filter attached to a PostgREST request. -/
inductive QueryFilter where
  | eq (col : String) (val : String)
  | gte (col : String) (val : String)
deriving DecidableEq

/-- Description of one PostgREST request: table, action, selected
columns, filters. -/
structure Query where
  table : String
  action : String
  columns : String
  filters : List QueryFilter
deriving DecidableEq

/-- The income request built by `getMonthlyData`:
`from('income').select('amount, date').eq('user_id', userId).gte('date', sixMonthsAgo)`. -/
def incomeMonthlyQuery (userId : String) (today : PDate) : Query :=
  ⟨"income", "select", "amount, date",
    [.eq "user_id" userId, .gte "date" (isoDate (sixMonthsAgo today))]⟩

/-- The expense request built by `getMonthlyData`:
`from('expenses').select('amount, date').eq('user_id', userId).gte('date', sixMonthsAgo)`. -/
def expensesMonthlyQuery (userId : String) (today : PDate) : Query :=
  ⟨"expenses", "select", "amount, date",
    [.eq "user_id" userId, .gte "date" (isoDate (sixMonthsAgo today))]⟩

/-- The backend requests `getMonthlyData` issues, in program order.  Both
are built from the arguments alone (the second request does not depend on
the first reply). -/
def getMonthlyDataQueries (userId : String) (today : PDate) : List Query :=
  [incomeMonthlyQuery userId today, expensesMonthlyQuery userId today]

/-- A step of an execution: a request is issued, or its reply arrives. -/
inductive CallEvent where
  | issue (q : Query)
  | complete (q : Query)
deriving DecidableEq

/-- The execution trace of `getMonthlyData`.  The source awaits the
income query (lines 354-358) before the statement that builds and awaits
the expense query (lines 360-364) runs, so each request completes before
the next is issued; the trace is the same for every database state and
backend outcome. -/
def getMonthlyDataTrace (userId : String) (today : PDate) : List CallEvent :=
  [.issue (incomeMonthlyQuery userId today),
   .complete (incomeMonthlyQuery userId today),
   .issue (expensesMonthlyQuery userId today),
   .complete (expensesMonthlyQuery userId today)]

/-- A JavaScript value sitting in a record handed to `exportToCSV`
(string cells, or numeric cells restricted to integers, whose JS
rendering has no fractional part). -/
inductive JSValue where
  | str (s : String)
  | num (n : Int)
deriving DecidableEq

/-- Serialization of one CSV cell: `row[header]` is interpolated into the
output row.  A string containing a comma is wrapped in double quotes
(`exportToCSV` line 387); any other value is rendered as is — embedded
quotes and newlines are not escaped, and a missing field (`undefined`)
becomes an empty cell through `Array.prototype.join`. -/
def cellString (v : Option JSValue) : String :=
  match v with
  | none => ""
  | some (.str s) => if s.data.contains ',' then "\"" ++ s ++ "\"" else s
  | some (.num n) => toString n

/-- One data row of the CSV: the first record's headers, each looked up
in this row, joined with commas. -/
def rowLine (headers : List String) (row : List (String × JSValue)) :
    String :=
  String.intercalate "," (headers.map (fun h => cellString (row.lookup h)))

/-- The CSV text `exportToCSV` builds for a non-empty record list: the
headers are the first record's field names in key order
(`Object.keys(data[0])`), followed by one line per record, all joined
with a newline. -/
def csvContent (data : List (List (String × JSValue))) : String :=
  match data with
  | [] => ""
  | first :: _ =>
    String.intercalate "\n"
      (String.intercalate "," (first.map Prod.fst) ::
        data.map (rowLine (first.map Prod.fst)))

/-- The browser download `exportToCSV` triggers: a file name and the blob
text. -/
structure Download where
  filename : String
  content : String
deriving DecidableEq

/-- Façade `exportToCSV`: returns early with no effect on an empty list
(`if (data.length === 0) return;`), otherwise triggers exactly one
download of the CSV text under the given file name. -/
def exportToCSV (data : List (List (String × JSValue)))
    (filename : String) : Option Download :=
  if data.isEmpty then none
  else some ⟨filename, csvContent data⟩

/-- Fixture: an income row owned by alice, used by concrete instances. -/
def aliceIncomeRow : Income :=
  ⟨"i1", "alice", 5, "job", ⟨2025, 1, 1⟩, "salary", "", 10, 10⟩

/-- Fixture: a database holding only `aliceIncomeRow`. -/
def aliceIncomeDB : DB :=
  ⟨[], [aliceIncomeRow], [], [], [], []⟩

/-- Fixture: the partial update `{ id: "i2" }` renaming the primary key. -/
def renameIdUpdate : IncomeUpdate :=
  ⟨some "i2", none, none, none, none, none, none, none, none⟩

/-- Fixture: the empty partial update (no field named). -/
def emptyIncomeUpdate : IncomeUpdate :=
  ⟨none, none, none, none, none, none, none, none, none⟩

/-- C2 property as amended: for every entity, a partial update that does
not rename the primary key and whose result still satisfies the table's
owner policy and CHECK constraint changes exactly the named fields of the
addressed row: the primary key and every unnamed field keep their values,
`updated_at` is overwritten with the (strictly larger) server time, and
the rest of the table is untouched (the table splits around the one
rewritten row). -/
def UpdateFrameOk : Prop :=
  (∀ (uid id : String) (u : IncomeUpdate) (now : Nat) (db : DB) (r : Income),
    db.income.Pairwise (fun a b => a.id ≠ b.id) →
    r ∈ db.income → r.id = id → r.user_id = uid →
    u.id = none →
    (applyIncomeUpdate u now r).user_id = uid →
    r.updated_at < now →
    ((updateIncome uid id u now db none).1.data = some (applyIncomeUpdate u now r) ∧
      (applyIncomeUpdate u now r).id = r.id ∧
      (u.user_id = none → (applyIncomeUpdate u now r).user_id = r.user_id) ∧
      (u.amount = none → (applyIncomeUpdate u now r).amount = r.amount) ∧
      (u.source = none → (applyIncomeUpdate u now r).source = r.source) ∧
      (u.date = none → (applyIncomeUpdate u now r).date = r.date) ∧
      (u.category = none → (applyIncomeUpdate u now r).category = r.category) ∧
      (u.notes = none → (applyIncomeUpdate u now r).notes = r.notes) ∧
      (u.created_at = none →
        (applyIncomeUpdate u now r).created_at = r.created_at) ∧
      r.updated_at < (applyIncomeUpdate u now r).updated_at ∧
      (∃ l1 l2, db.income = l1 ++ r :: l2 ∧
        (updateIncome uid id u now db none).2.income =
          l1 ++ applyIncomeUpdate u now r :: l2))) ∧
  (∀ (uid id : String) (u : ExpenseUpdate) (now : Nat) (db : DB) (r : Expense),
    db.expenses.Pairwise (fun a b => a.id ≠ b.id) →
    r ∈ db.expenses → r.id = id → r.user_id = uid →
    u.id = none →
    (applyExpenseUpdate u now r).user_id = uid →
    r.updated_at < now →
    ((updateExpense uid id u now db none).1.data = some (applyExpenseUpdate u now r) ∧
      (applyExpenseUpdate u now r).id = r.id ∧
      (u.user_id = none → (applyExpenseUpdate u now r).user_id = r.user_id) ∧
      (u.amount = none → (applyExpenseUpdate u now r).amount = r.amount) ∧
      (u.vendor = none → (applyExpenseUpdate u now r).vendor = r.vendor) ∧
      (u.date = none → (applyExpenseUpdate u now r).date = r.date) ∧
      (u.category = none → (applyExpenseUpdate u now r).category = r.category) ∧
      (u.notes = none → (applyExpenseUpdate u now r).notes = r.notes) ∧
      (u.created_at = none →
        (applyExpenseUpdate u now r).created_at = r.created_at) ∧
      r.updated_at < (applyExpenseUpdate u now r).updated_at ∧
      (∃ l1 l2, db.expenses = l1 ++ r :: l2 ∧
        (updateExpense uid id u now db none).2.expenses =
          l1 ++ applyExpenseUpdate u now r :: l2))) ∧
  (∀ (uid id : String) (u : InvestmentUpdate) (now : Nat) (db : DB) (r : Investment),
    db.investments.Pairwise (fun a b => a.id ≠ b.id) →
    r ∈ db.investments → r.id = id → r.user_id = uid →
    u.id = none →
    (applyInvestmentUpdate u now r).user_id = uid →
    r.updated_at < now →
    ((updateInvestment uid id u now db none).1.data = some (applyInvestmentUpdate u now r) ∧
      (applyInvestmentUpdate u now r).id = r.id ∧
      (u.user_id = none → (applyInvestmentUpdate u now r).user_id = r.user_id) ∧
      (u.type = none → (applyInvestmentUpdate u now r).type = r.type) ∧
      (u.amount = none → (applyInvestmentUpdate u now r).amount = r.amount) ∧
      (u.date = none → (applyInvestmentUpdate u now r).date = r.date) ∧
      (u.platform = none → (applyInvestmentUpdate u now r).platform = r.platform) ∧
      (u.notes = none → (applyInvestmentUpdate u now r).notes = r.notes) ∧
      (u.created_at = none →
        (applyInvestmentUpdate u now r).created_at = r.created_at) ∧
      r.updated_at < (applyInvestmentUpdate u now r).updated_at ∧
      (∃ l1 l2, db.investments = l1 ++ r :: l2 ∧
        (updateInvestment uid id u now db none).2.investments =
          l1 ++ applyInvestmentUpdate u now r :: l2))) ∧
  (∀ (uid id : String) (u : SavingsGoalUpdate) (now : Nat) (db : DB) (r : SavingsGoal),
    db.savings.Pairwise (fun a b => a.id ≠ b.id) →
    r ∈ db.savings → r.id = id → r.user_id = uid →
    u.id = none →
    (applySavingsGoalUpdate u now r).user_id = uid →
    r.updated_at < now →
    ((updateSavingsGoal uid id u now db none).1.data = some (applySavingsGoalUpdate u now r) ∧
      (applySavingsGoalUpdate u now r).id = r.id ∧
      (u.user_id = none → (applySavingsGoalUpdate u now r).user_id = r.user_id) ∧
      (u.goal_name = none → (applySavingsGoalUpdate u now r).goal_name = r.goal_name) ∧
      (u.target_amount = none → (applySavingsGoalUpdate u now r).target_amount = r.target_amount) ∧
      (u.deadline = none → (applySavingsGoalUpdate u now r).deadline = r.deadline) ∧
      (u.current_amount = none → (applySavingsGoalUpdate u now r).current_amount = r.current_amount) ∧
      (u.notes = none → (applySavingsGoalUpdate u now r).notes = r.notes) ∧
      (u.created_at = none →
        (applySavingsGoalUpdate u now r).created_at = r.created_at) ∧
      r.updated_at < (applySavingsGoalUpdate u now r).updated_at ∧
      (∃ l1 l2, db.savings = l1 ++ r :: l2 ∧
        (updateSavingsGoal uid id u now db none).2.savings =
          l1 ++ applySavingsGoalUpdate u now r :: l2))) ∧
  (∀ (uid id : String) (u : BudgetUpdate) (now : Nat) (db : DB) (r : Budget),
    db.budgets.Pairwise (fun a b => a.id ≠ b.id) →
    r ∈ db.budgets → r.id = id → r.user_id = uid →
    u.id = none →
    (applyBudgetUpdate u now r).user_id = uid →
    budgetCheck (applyBudgetUpdate u now r) = true →
    r.updated_at < now →
    ((updateBudget uid id u now db none).1.data = some (applyBudgetUpdate u now r) ∧
      (applyBudgetUpdate u now r).id = r.id ∧
      (u.user_id = none → (applyBudgetUpdate u now r).user_id = r.user_id) ∧
      (u.category = none → (applyBudgetUpdate u now r).category = r.category) ∧
      (u.budget_limit = none → (applyBudgetUpdate u now r).budget_limit = r.budget_limit) ∧
      (u.start_date = none → (applyBudgetUpdate u now r).start_date = r.start_date) ∧
      (u.created_at = none →
        (applyBudgetUpdate u now r).created_at = r.created_at) ∧
      r.updated_at < (applyBudgetUpdate u now r).updated_at ∧
      (∃ l1 l2, db.budgets = l1 ++ r :: l2 ∧
        (updateBudget uid id u now db none).2.budgets =
          l1 ++ applyBudgetUpdate u now r :: l2))) ∧
  (∀ (uid userId : String) (u : UserProfileUpdate) (now : Nat) (db : DB)
      (r : UserProfile),
    db.user_profiles.Pairwise (fun a b => a.id ≠ b.id) →
    r ∈ db.user_profiles → r.id = userId → r.id = uid →
    u.id = none →
    r.updated_at < now →
    ((updateUserProfile uid userId u now db none).1.data =
        some (applyUserProfileUpdate u now r) ∧
      (applyUserProfileUpdate u now r).id = r.id ∧
      (u.name = none → (applyUserProfileUpdate u now r).name = r.name) ∧
      (u.user_type = none →
        (applyUserProfileUpdate u now r).user_type = r.user_type) ∧
      (u.created_at = none →
        (applyUserProfileUpdate u now r).created_at = r.created_at) ∧
      r.updated_at < (applyUserProfileUpdate u now r).updated_at ∧
      (∃ l1 l2, db.user_profiles = l1 ++ r :: l2 ∧
        (updateUserProfile uid userId u now db none).2.user_profiles =
          l1 ++ applyUserProfileUpdate u now r :: l2)))

/-- C1 property, for a caller authenticated as `A` and a foreign user
`B`: list and single-row reads never return a `B`-owned row; creates of a
`B`-owned record are rejected without touching the database; updates and
deletes leave the multiset of `B`-owned rows exactly as it was and never
return a `B`-owned row; the two analytics reads only return projections
of rows not owned by `B`. -/
def UserIsolation (A B : String) : Prop :=
  (∀ (userId : String) (db : DB) (fail : Option PGError) (l : List Income)
      (r : Income),
    (getIncome A userId db fail).data = some l → r ∈ l → r.user_id ≠ B) ∧
  (∀ (userId : String) (db : DB) (fail : Option PGError) (l : List Expense)
      (r : Expense),
    (getExpenses A userId db fail).data = some l → r ∈ l → r.user_id ≠ B) ∧
  (∀ (userId : String) (db : DB) (fail : Option PGError)
      (l : List Investment) (r : Investment),
    (getInvestments A userId db fail).data = some l → r ∈ l →
      r.user_id ≠ B) ∧
  (∀ (userId : String) (db : DB) (fail : Option PGError)
      (l : List SavingsGoal) (r : SavingsGoal),
    (getSavingsGoals A userId db fail).data = some l → r ∈ l →
      r.user_id ≠ B) ∧
  (∀ (userId : String) (db : DB) (fail : Option PGError) (l : List Budget)
      (r : Budget),
    (getBudgets A userId db fail).data = some l → r ∈ l → r.user_id ≠ B) ∧
  (∀ (userId : String) (db : DB) (fail : Option PGError) (p : UserProfile),
    (getUserProfile A userId db fail).data = some p → p.id ≠ B) ∧
  (∀ (x : NewIncome) (newId : String) (now : Nat) (db : DB)
      (fail : Option PGError), x.user_id = B →
    (addIncome A x newId now db fail).1.data = none ∧
    (addIncome A x newId now db fail).2 = db) ∧
  (∀ (x : NewExpense) (newId : String) (now : Nat) (db : DB)
      (fail : Option PGError), x.user_id = B →
    (addExpense A x newId now db fail).1.data = none ∧
    (addExpense A x newId now db fail).2 = db) ∧
  (∀ (x : NewInvestment) (newId : String) (now : Nat) (db : DB)
      (fail : Option PGError), x.user_id = B →
    (addInvestment A x newId now db fail).1.data = none ∧
    (addInvestment A x newId now db fail).2 = db) ∧
  (∀ (x : NewSavingsGoal) (newId : String) (now : Nat) (db : DB)
      (fail : Option PGError), x.user_id = B →
    (addSavingsGoal A x newId now db fail).1.data = none ∧
    (addSavingsGoal A x newId now db fail).2 = db) ∧
  (∀ (x : NewBudget) (newId : String) (now : Nat) (db : DB)
      (fail : Option PGError), x.user_id = B →
    (addBudget A x newId now db fail).1.data = none ∧
    (addBudget A x newId now db fail).2 = db) ∧
  (∀ (id : String) (u : IncomeUpdate) (now : Nat) (db : DB)
      (fail : Option PGError),
    (updateIncome A id u now db fail).2.income.filter
        (fun x => x.user_id == B) =
      db.income.filter (fun x => x.user_id == B) ∧
    (∀ r, (updateIncome A id u now db fail).1.data = some r →
      r.user_id ≠ B)) ∧
  (∀ (id : String) (u : ExpenseUpdate) (now : Nat) (db : DB)
      (fail : Option PGError),
    (updateExpense A id u now db fail).2.expenses.filter
        (fun x => x.user_id == B) =
      db.expenses.filter (fun x => x.user_id == B) ∧
    (∀ r, (updateExpense A id u now db fail).1.data = some r →
      r.user_id ≠ B)) ∧
  (∀ (id : String) (u : InvestmentUpdate) (now : Nat) (db : DB)
      (fail : Option PGError),
    (updateInvestment A id u now db fail).2.investments.filter
        (fun x => x.user_id == B) =
      db.investments.filter (fun x => x.user_id == B) ∧
    (∀ r, (updateInvestment A id u now db fail).1.data = some r →
      r.user_id ≠ B)) ∧
  (∀ (id : String) (u : SavingsGoalUpdate) (now : Nat) (db : DB)
      (fail : Option PGError),
    (updateSavingsGoal A id u now db fail).2.savings.filter
        (fun x => x.user_id == B) =
      db.savings.filter (fun x => x.user_id == B) ∧
    (∀ r, (updateSavingsGoal A id u now db fail).1.data = some r →
      r.user_id ≠ B)) ∧
  (∀ (id : String) (u : BudgetUpdate) (now : Nat) (db : DB)
      (fail : Option PGError),
    (updateBudget A id u now db fail).2.budgets.filter
        (fun x => x.user_id == B) =
      db.budgets.filter (fun x => x.user_id == B) ∧
    (∀ r, (updateBudget A id u now db fail).1.data = some r →
      r.user_id ≠ B)) ∧
  (∀ (userId : String) (u : UserProfileUpdate) (now : Nat) (db : DB)
      (fail : Option PGError),
    (updateUserProfile A userId u now db fail).2.user_profiles.filter
        (fun x => x.id == B) =
      db.user_profiles.filter (fun x => x.id == B) ∧
    (∀ r, (updateUserProfile A userId u now db fail).1.data = some r →
      r.id ≠ B)) ∧
  (∀ (id : String) (db : DB) (fail : Option PGError),
    (deleteIncome A id db fail).2.income.filter (fun x => x.user_id == B) =
      db.income.filter (fun x => x.user_id == B)) ∧
  (∀ (id : String) (db : DB) (fail : Option PGError),
    (deleteExpense A id db fail).2.expenses.filter
        (fun x => x.user_id == B) =
      db.expenses.filter (fun x => x.user_id == B)) ∧
  (∀ (id : String) (db : DB) (fail : Option PGError),
    (deleteInvestment A id db fail).2.investments.filter
        (fun x => x.user_id == B) =
      db.investments.filter (fun x => x.user_id == B)) ∧
  (∀ (id : String) (db : DB) (fail : Option PGError),
    (deleteSavingsGoal A id db fail).2.savings.filter
        (fun x => x.user_id == B) =
      db.savings.filter (fun x => x.user_id == B)) ∧
  (∀ (id : String) (db : DB) (fail : Option PGError),
    (deleteBudget A id db fail).2.budgets.filter (fun x => x.user_id == B) =
      db.budgets.filter (fun x => x.user_id == B)) ∧
  (∀ (userId : String) (today : PDate) (db : DB) (iF eF : Option PGError)
      (l : List (Rat × PDate)) (p : Rat × PDate),
    ((getMonthlyData A userId today db iF eF).incomeData = some l →
      p ∈ l → ∃ r, r ∈ db.income ∧ r.user_id ≠ B ∧
        p = (r.amount, r.date)) ∧
    ((getMonthlyData A userId today db iF eF).expenseData = some l →
      p ∈ l → ∃ r, r ∈ db.expenses ∧ r.user_id ≠ B ∧
        p = (r.amount, r.date))) ∧
  (∀ (userId : String) (db : DB) (fail : Option PGError)
      (l : List (String × Rat)) (p : String × Rat),
    (getExpensesByCategory A userId db fail).data = some l → p ∈ l →
      ∃ r, r ∈ db.expenses ∧ r.user_id ≠ B ∧ p = (r.category, r.amount))

theorem ratFloor_eq_floor (q : Rat) : ratFloor q = ⌊q⌋ := by
  rw [Rat.floor_def, ratFloor, Int.fdiv_eq_ediv]
  exact Int.ofNat_le.mpr (Nat.zero_le _)

theorem roundCents_nonpos (q : Rat) (h : q ≤ 0) : roundCents q ≤ 0 := by
  rw [roundCents]
  by_cases hq : q < 0
  · rw [if_pos hq, neg_nonpos]
    apply div_nonneg _ (by norm_num)
    rw [ratFloor_eq_floor]
    have : (0 : Rat) ≤ -q * 100 + 1/2 := by nlinarith
    exact_mod_cast Int.le_floor.mpr (by exact_mod_cast this)
  · rw [if_neg hq]
    have hq0 : q = 0 := le_antisymm h (not_lt.mp hq)
    subst hq0
    rw [ratFloor_eq_floor]
    norm_num

theorem roundCents_ten_fifty : roundCents (10.50 : Rat) = 10.50 := by
  rw [roundCents, if_neg (by norm_num), ratFloor_eq_floor]
  have h : ⌊(10.50 : Rat) * 100 + 1/2⌋ = 1050 := by
    rw [Int.floor_eq_iff] <;> norm_num
  rw [h]
  norm_num

theorem cellString_str_quoted (s : String) (h : s.data.contains ',' = true) :
    cellString (some (.str s)) = "\"" ++ s ++ "\"" := by
  have he : cellString (some (.str s)) =
      if s.data.contains ',' then "\"" ++ s ++ "\"" else s := rfl
  rw [he, h]
  simp

theorem cellString_str_plain (s : String) (h : s.data.contains ',' = false) :
    cellString (some (.str s)) = s := by
  have he : cellString (some (.str s)) =
      if s.data.contains ',' then "\"" ++ s ++ "\"" else s := rfl
  rw [he, h]
  simp

theorem string_ne_quoted (s : String) : s ≠ "\"" ++ s ++ "\"" := by
  intro h
  have hl := congrArg String.length h
  rw [String.length_append, String.length_append] at hl
  have h1 : ("\"" : String).length = 1 := rfl
  rw [h1] at hl
  omega

/-- C6: `exportToCSV [{a:"1,2", b:"x"}] "f.csv"` produces exactly the two
newline-separated lines `a,b` and `"1,2",x`; a cell is wrapped in double
quotes exactly when it is a string containing a comma (numeric cells are
rendered bare); embedded quote characters and newlines are passed through
without any escaping, both inside and outside the quoted case. -/
theorem exportToCSV_quoting :
    exportToCSV [[("a", .str "1,2"), ("b", .str "x")]] "f.csv" =
      some ⟨"f.csv", "a,b" ++ "\n" ++ "\"1,2\",x"⟩ ∧
    (∀ s : String,
      cellString (some (.str s)) = "\"" ++ s ++ "\"" ↔
        s.data.contains ',' = true) ∧
    (∀ s : String, s.data.contains ',' = false →
      cellString (some (.str s)) = s) ∧
    (∀ n : Int, cellString (some (.num n)) = toString n) ∧
    cellString (some (.str "a\"b\nc")) = "a\"b\nc" ∧
    cellString (some (.str "a\",\nb")) = "\"" ++ "a\",\nb" ++ "\"" := by
  refine ⟨by decide, ?_, cellString_str_plain, fun n => rfl, by decide, by decide⟩
  intro s
  constructor
  · intro h
    by_contra hc
    rw [cellString_str_plain s (Bool.not_eq_true _ ▸ hc)] at h
    exact string_ne_quoted s h
  · exact cellString_str_quoted s

/-- Closed instance of `exportToCSV_quoting`: its conditional parts
evaluated at concrete cells. -/
theorem exportToCSV_quoting_witness :
    (cellString (some (.str "x,y")) = "\"" ++ "x,y" ++ "\"" ↔
      ("x,y" : String).data.contains ',' = true) ∧
    cellString (some (.str "plain")) = "plain" := by
  refine ⟨exportToCSV_quoting.2.1 "x,y", ?_⟩
  exact exportToCSV_quoting.2.2.1 "plain" (by decide)

/-- C9: `exportToCSV` applied to the empty record list returns before
building any CSV text or download, whatever the file name: no effect is
produced. -/
theorem exportToCSV_empty_noop (filename : String) :
    exportToCSV [] filename = none := rfl

theorem lookup_of_head_not_mem (headers : List String) (k : String)
    (v : JSValue) (row : List (String × JSValue)) (h : String)
    (hmem : h ∈ headers) (hk : k ∉ headers) :
    ((k, v) :: row).lookup h = row.lookup h := by
  have : (h == k) = false := by
    simp only [beq_eq_false_iff_ne, ne_eq]
    intro he
    exact hk (he ▸ hmem)
  simp [List.lookup, this]

/-- C10: the CSV columns are exactly the first record's field names in
key order; a field carried only by a later record is invisible to the
output (dropping it changes nothing), and a first-record field missing
from a later record serializes as an empty cell in that row (shown both
in general through the lookup and on a concrete two-record list). -/
theorem csv_headers_from_first_record :
    (∀ (first : List (String × JSValue))
        (rest : List (List (String × JSValue))),
      csvContent (first :: rest) =
        String.intercalate "\n"
          (String.intercalate "," (first.map Prod.fst) ::
            (first :: rest).map (rowLine (first.map Prod.fst)))) ∧
    (∀ (headers : List String) (k : String) (v : JSValue)
        (row : List (String × JSValue)), k ∉ headers →
      rowLine headers ((k, v) :: row) = rowLine headers row) ∧
    (∀ (row : List (String × JSValue)) (h : String),
      row.lookup h = none → cellString (row.lookup h) = "") ∧
    csvContent [[("a", .str "x")], [("b", .str "y")]] =
      "a" ++ "\n" ++ "x" ++ "\n" ++ "" := by
  refine ⟨fun first rest => rfl, ?_, ?_, by decide⟩
  · intro headers k v row hk
    unfold rowLine
    congr 1
    apply List.map_congr_left
    intro h hmem
    rw [lookup_of_head_not_mem headers k v row h hmem hk]
  · intro row h hnone
    rw [hnone]
    rfl

/-- Closed instance of `csv_headers_from_first_record`: the
later-record-only field `b` is dropped from the output. -/
theorem csv_headers_from_first_record_witness :
    rowLine ["a"] [("b", .str "y"), ("a", .str "x")] =
      rowLine ["a"] [("a", .str "x")] :=
  csv_headers_from_first_record.2.1 ["a"] "b" (.str "y")
    [("a", .str "x")] (by decide)

/-- C4 (counterexample): at a concrete input, the execution trace of
`getMonthlyData` is fully determined and strictly sequential — the income
query has already completed (index 1) before the expense query is even
issued (index 2), so no execution exists in which the two calls run in
parallel or the expense call completes first. -/
theorem getMonthlyData_sequential_counterexample :
    getMonthlyDataTrace "u1" ⟨2026, 10, 11⟩ =
      [CallEvent.issue (incomeMonthlyQuery "u1" ⟨2026, 10, 11⟩),
       CallEvent.complete (incomeMonthlyQuery "u1" ⟨2026, 10, 11⟩),
       CallEvent.issue (expensesMonthlyQuery "u1" ⟨2026, 10, 11⟩),
       CallEvent.complete (expensesMonthlyQuery "u1" ⟨2026, 10, 11⟩)] ∧
    (getMonthlyDataTrace "u1" ⟨2026, 10, 11⟩).indexOf
        (CallEvent.complete (incomeMonthlyQuery "u1" ⟨2026, 10, 11⟩)) <
      (getMonthlyDataTrace "u1" ⟨2026, 10, 11⟩).indexOf
        (CallEvent.issue (expensesMonthlyQuery "u1" ⟨2026, 10, 11⟩)) :=
  ⟨rfl, by decide⟩

/-- C4 (amended): the two backend calls inside `getMonthlyData` execute
sequentially in program order — for every input the trace issues and
completes the income query before the expense query is issued — while
each call may still fail independently of the other: either result pair
is unaffected by the failure injected into the other call. -/
theorem getMonthlyData_trace_order :
    ∀ (userId : String) (today : PDate),
      getMonthlyDataTrace userId today =
        [CallEvent.issue (incomeMonthlyQuery userId today),
         CallEvent.complete (incomeMonthlyQuery userId today),
         CallEvent.issue (expensesMonthlyQuery userId today),
         CallEvent.complete (expensesMonthlyQuery userId today)] ∧
      (∀ (uid : String) (db : DB) (iF iF2 eF : Option PGError),
        (getMonthlyData uid userId today db iF eF).expenseData =
          (getMonthlyData uid userId today db iF2 eF).expenseData ∧
        (getMonthlyData uid userId today db iF eF).expenseError =
          (getMonthlyData uid userId today db iF2 eF).expenseError) ∧
      (∀ (uid : String) (db : DB) (iF eF eF2 : Option PGError),
        (getMonthlyData uid userId today db iF eF).incomeData =
          (getMonthlyData uid userId today db iF eF2).incomeData ∧
        (getMonthlyData uid userId today db iF eF).incomeError =
          (getMonthlyData uid userId today db iF eF2).incomeError) := by
  intro userId today
  refine ⟨rfl, ?_, ?_⟩
  · intro uid db iF iF2 eF
    exact ⟨rfl, rfl⟩
  · intro uid db iF eF eF2
    exact ⟨rfl, rfl⟩

/-- C3: `getMonthlyData` issues exactly two queries, one on `income` and
one on `expenses`, each selecting only `amount, date` and filtered to the
caller's rows dated on or after the six-months-ago cutoff; the two result
lists are returned uncombined, each with its own error field (sound and
complete row characterizations below); on an account owning no records
both lists come back empty with no errors. -/
theorem getMonthlyData_two_queries_empty_account :
    ∀ (userId : String) (today : PDate),
      (getMonthlyDataQueries userId today).length = 2 ∧
      getMonthlyDataQueries userId today =
        [⟨"income", "select", "amount, date",
          [.eq "user_id" userId,
           .gte "date" (isoDate (sixMonthsAgo today))]⟩,
         ⟨"expenses", "select", "amount, date",
          [.eq "user_id" userId,
           .gte "date" (isoDate (sixMonthsAgo today))]⟩] ∧
      (∀ (uid : String) (db : DB) (iF eF : Option PGError) (p : Rat × PDate),
        p ∈ ((getMonthlyData uid userId today db iF eF).incomeData).getD [] →
          ∃ r, r ∈ db.income ∧ r.user_id = userId ∧
            PDate.leb (sixMonthsAgo today) r.date = true ∧
            p = (r.amount, r.date)) ∧
      (∀ (uid : String) (db : DB) (iF eF : Option PGError) (p : Rat × PDate),
        p ∈ ((getMonthlyData uid userId today db iF eF).expenseData).getD [] →
          ∃ r, r ∈ db.expenses ∧ r.user_id = userId ∧
            PDate.leb (sixMonthsAgo today) r.date = true ∧
            p = (r.amount, r.date)) ∧
      (∀ (db : DB) (r : Income), r ∈ db.income → r.user_id = userId →
        PDate.leb (sixMonthsAgo today) r.date = true →
          (r.amount, r.date) ∈
            ((getMonthlyData userId userId today db none none).incomeData).getD []) ∧
      (∀ (db : DB) (r : Expense), r ∈ db.expenses → r.user_id = userId →
        PDate.leb (sixMonthsAgo today) r.date = true →
          (r.amount, r.date) ∈
            ((getMonthlyData userId userId today db none none).expenseData).getD []) ∧
      (∀ (uid : String) (db : DB),
        (∀ r ∈ db.income, r.user_id ≠ userId) →
        (∀ r ∈ db.expenses, r.user_id ≠ userId) →
        getMonthlyData uid userId today db none none =
          ⟨some [], some [], none, none⟩) := by
  intro userId today
  refine ⟨rfl, rfl, ?_, ?_, ?_, ?_, ?_⟩
  · intro uid db iF eF p hp
    cases iF with
    | some e => simp [getMonthlyData] at hp
    | none =>
      cases eF with
      | some e =>
        simp only [getMonthlyData, rlsSelect, Option.getD_some, List.mem_map,
          List.mem_filter, Bool.and_eq_true, beq_iff_eq] at hp
        obtain ⟨r, ⟨hmem, _, hui, hle⟩, hpr⟩ := hp
        exact ⟨r, hmem, hui, hle, hpr.symm⟩
      | none =>
        simp only [getMonthlyData, rlsSelect, Option.getD_some, List.mem_map,
          List.mem_filter, Bool.and_eq_true, beq_iff_eq] at hp
        obtain ⟨r, ⟨hmem, _, hui, hle⟩, hpr⟩ := hp
        exact ⟨r, hmem, hui, hle, hpr.symm⟩
  · intro uid db iF eF p hp
    cases eF with
    | some e => simp [getMonthlyData] at hp
    | none =>
      cases iF with
      | some e =>
        simp only [getMonthlyData, rlsSelect, Option.getD_some, List.mem_map,
          List.mem_filter, Bool.and_eq_true, beq_iff_eq] at hp
        obtain ⟨r, ⟨hmem, _, hui, hle⟩, hpr⟩ := hp
        exact ⟨r, hmem, hui, hle, hpr.symm⟩
      | none =>
        simp only [getMonthlyData, rlsSelect, Option.getD_some, List.mem_map,
          List.mem_filter, Bool.and_eq_true, beq_iff_eq] at hp
        obtain ⟨r, ⟨hmem, _, hui, hle⟩, hpr⟩ := hp
        exact ⟨r, hmem, hui, hle, hpr.symm⟩
  · intro db r hmem hui hle
    simp only [getMonthlyData, rlsSelect, Option.getD_some, List.mem_map,
      List.mem_filter, Bool.and_eq_true, beq_iff_eq]
    exact ⟨r, ⟨hmem, hui, hui, hle⟩, rfl⟩
  · intro db r hmem hui hle
    simp only [getMonthlyData, rlsSelect, Option.getD_some, List.mem_map,
      List.mem_filter, Bool.and_eq_true, beq_iff_eq]
    exact ⟨r, ⟨hmem, hui, hui, hle⟩, rfl⟩
  · intro uid db hinc hexp
    simp only [getMonthlyData, rlsSelect]
    have h1 : db.income.filter
        (fun r => r.user_id == uid &&
          (r.user_id == userId && PDate.leb (sixMonthsAgo today) r.date)) = [] := by
      rw [List.filter_eq_nil_iff]
      intro r hr
      simp only [Bool.and_eq_true, beq_iff_eq]
      rintro ⟨-, hui, -⟩
      exact absurd hui (hinc r hr)
    have h2 : db.expenses.filter
        (fun r => r.user_id == uid &&
          (r.user_id == userId && PDate.leb (sixMonthsAgo today) r.date)) = [] := by
      rw [List.filter_eq_nil_iff]
      intro r hr
      simp only [Bool.and_eq_true, beq_iff_eq]
      rintro ⟨-, hui, -⟩
      exact absurd hui (hexp r hr)
    rw [h1, h2]
    rfl

/-- Closed instance of `getMonthlyData_two_queries_empty_account`: on an
empty database the analytics call returns two empty lists and no
errors. -/
theorem getMonthlyData_empty_account_witness :
    getMonthlyData "u1" "u1" ⟨2026, 1, 15⟩ ⟨[], [], [], [], [], []⟩
      none none = ⟨some [], some [], none, none⟩ :=
  (getMonthlyData_two_queries_empty_account "u1" ⟨2026, 1, 15⟩).2.2.2.2.2.2
    "u1" ⟨[], [], [], [], [], []⟩ (by intro r hr; cases hr)
    (by intro r hr; cases hr)

theorem PDate.leb_total (a b : PDate) : a.leb b = true ∨ b.leb a = true := by
  simp only [PDate.leb, Bool.or_eq_true, Bool.and_eq_true, beq_iff_eq,
    decide_eq_true_eq]
  omega

theorem PDate.leb_trans (a b c : PDate) (hab : a.leb b = true)
    (hbc : b.leb c = true) : a.leb c = true := by
  simp only [PDate.leb, Bool.or_eq_true, Bool.and_eq_true, beq_iff_eq,
    decide_eq_true_eq] at hab hbc ⊢
  omega

theorem Nat.ble_total (a b : Nat) : Nat.ble a b = true ∨ Nat.ble b a = true := by
  rcases Nat.le_total a b with h | h
  · exact Or.inl (Nat.ble_eq.mpr h)
  · exact Or.inr (Nat.ble_eq.mpr h)

theorem Nat.ble_trans (a b c : Nat) (hab : Nat.ble a b = true)
    (hbc : Nat.ble b c = true) : Nat.ble a c = true :=
  Nat.ble_eq.mpr (le_trans (Nat.ble_eq.mp hab) (Nat.ble_eq.mp hbc))

theorem mem_orderByDesc (key : ρ → κ) (leb : κ → κ → Bool) (rows : List ρ)
    (x : ρ) : x ∈ orderByDesc key leb rows ↔ x ∈ rows :=
  (List.perm_insertionSort _ rows).mem_iff

theorem pairwise_orderByDesc (key : ρ → κ) (leb : κ → κ → Bool)
    (htot : ∀ u v, leb u v = true ∨ leb v u = true)
    (htrans : ∀ u v w, leb u v = true → leb v w = true → leb u w = true)
    (rows : List ρ) :
    (orderByDesc key leb rows).Pairwise
      (fun a b => leb (key b) (key a) = true) := by
  haveI : IsTotal ρ (fun a b => leb (key b) (key a) = true) :=
    ⟨fun a b => htot (key b) (key a)⟩
  haveI : IsTrans ρ (fun a b => leb (key b) (key a) = true) :=
    ⟨fun a b c hab hbc => htrans (key c) (key b) (key a) hbc hab⟩
  exact List.sorted_insertionSort _ rows

theorem mem_rlsSelect (uid : String) (owner : ρ → String) (pred : ρ → Bool)
    (rows : List ρ) (x : ρ) :
    x ∈ rlsSelect uid owner pred rows ↔
      x ∈ rows ∧ owner x = uid ∧ pred x = true := by
  simp [rlsSelect, List.mem_filter, Bool.and_eq_true, beq_iff_eq, and_assoc]

/-- C8: for each entity, `list(userId)` run under userId's own identity
returns exactly the rows of that entity's table owned by userId, sorted
descending by the designated column (`date` for income, expenses and
investments; `created_at` for savings goals and budgets), with no
error. -/
theorem list_owned_sorted_desc :
    ∀ (userId : String) (db : DB),
      (∃ l, (getIncome userId userId db none).data = some l ∧
        (∀ r : Income, r ∈ l ↔ r ∈ db.income ∧ r.user_id = userId) ∧
        l.Pairwise (fun a b => PDate.leb b.date a.date = true)) ∧
      (∃ l, (getExpenses userId userId db none).data = some l ∧
        (∀ r : Expense, r ∈ l ↔ r ∈ db.expenses ∧ r.user_id = userId) ∧
        l.Pairwise (fun a b => PDate.leb b.date a.date = true)) ∧
      (∃ l, (getInvestments userId userId db none).data = some l ∧
        (∀ r : Investment, r ∈ l ↔ r ∈ db.investments ∧ r.user_id = userId) ∧
        l.Pairwise (fun a b => PDate.leb b.date a.date = true)) ∧
      (∃ l, (getSavingsGoals userId userId db none).data = some l ∧
        (∀ r : SavingsGoal, r ∈ l ↔ r ∈ db.savings ∧ r.user_id = userId) ∧
        l.Pairwise (fun a b => Nat.ble b.created_at a.created_at = true)) ∧
      (∃ l, (getBudgets userId userId db none).data = some l ∧
        (∀ r : Budget, r ∈ l ↔ r ∈ db.budgets ∧ r.user_id = userId) ∧
        l.Pairwise (fun a b => Nat.ble b.created_at a.created_at = true)) := by
  intro userId db
  refine ⟨⟨_, rfl, ?_, ?_⟩, ⟨_, rfl, ?_, ?_⟩, ⟨_, rfl, ?_, ?_⟩,
    ⟨_, rfl, ?_, ?_⟩, ⟨_, rfl, ?_, ?_⟩⟩ <;>
    first
      | (intro r
         rw [mem_orderByDesc, mem_rlsSelect]
         simp [beq_iff_eq])
      | exact pairwise_orderByDesc _ _ PDate.leb_total PDate.leb_trans _
      | exact pairwise_orderByDesc _ _ Nat.ble_total Nat.ble_trans _

/-- C7: every façade function returns the `{ data, error }` result shape
and surfaces the backend's error object unchanged: whatever error value
the backend reply carries comes back to the caller as the same value,
never interpreted, wrapped or replaced, and the data field of a failed
call is empty.  (In the embedding the façade functions are total: the
source never throws — it only destructures the backend reply.) -/
theorem facade_error_passthrough :
    (∀ (em pw nm : String) (ut : UserType) (resp : AuthResp),
      (signUp em pw nm ut resp).error = resp.error) ∧
    (∀ resp : AuthResp, (signInWithGoogle resp).error = resp.error) ∧
    (∀ (em pw : String) (resp : AuthResp),
      (signIn em pw resp).error = resp.error) ∧
    (∀ resp : AuthResp, (signOut resp).error = resp.error) ∧
    (∀ resp : AuthResp, (getCurrentUser resp).error = resp.error) ∧
    (∀ (uid userId : String) (db : DB) (e : PGError),
      (getUserProfile uid userId db (some e)).error = some e ∧
      (getUserProfile uid userId db (some e)).data = none) ∧
    (∀ (uid userId : String) (u : UserProfileUpdate) (now : Nat) (db : DB)
        (e : PGError),
      (updateUserProfile uid userId u now db (some e)).1.error = some e ∧
      (updateUserProfile uid userId u now db (some e)).1.data = none) ∧
    (∀ (uid userId : String) (db : DB) (e : PGError),
      (getIncome uid userId db (some e)).error = some e ∧
      (getIncome uid userId db (some e)).data = none) ∧
    (∀ (uid : String) (x : NewIncome) (newId : String) (now : Nat) (db : DB)
        (e : PGError),
      (addIncome uid x newId now db (some e)).1.error = some e ∧
      (addIncome uid x newId now db (some e)).1.data = none) ∧
    (∀ (uid id : String) (u : IncomeUpdate) (now : Nat) (db : DB)
        (e : PGError),
      (updateIncome uid id u now db (some e)).1.error = some e ∧
      (updateIncome uid id u now db (some e)).1.data = none) ∧
    (∀ (uid id : String) (db : DB) (e : PGError),
      (deleteIncome uid id db (some e)).1.error = some e) ∧
    (∀ (uid userId : String) (db : DB) (e : PGError),
      (getExpenses uid userId db (some e)).error = some e ∧
      (getExpenses uid userId db (some e)).data = none) ∧
    (∀ (uid : String) (x : NewExpense) (newId : String) (now : Nat) (db : DB)
        (e : PGError),
      (addExpense uid x newId now db (some e)).1.error = some e ∧
      (addExpense uid x newId now db (some e)).1.data = none) ∧
    (∀ (uid id : String) (u : ExpenseUpdate) (now : Nat) (db : DB)
        (e : PGError),
      (updateExpense uid id u now db (some e)).1.error = some e ∧
      (updateExpense uid id u now db (some e)).1.data = none) ∧
    (∀ (uid id : String) (db : DB) (e : PGError),
      (deleteExpense uid id db (some e)).1.error = some e) ∧
    (∀ (uid userId : String) (db : DB) (e : PGError),
      (getInvestments uid userId db (some e)).error = some e ∧
      (getInvestments uid userId db (some e)).data = none) ∧
    (∀ (uid : String) (x : NewInvestment) (newId : String) (now : Nat)
        (db : DB) (e : PGError),
      (addInvestment uid x newId now db (some e)).1.error = some e ∧
      (addInvestment uid x newId now db (some e)).1.data = none) ∧
    (∀ (uid id : String) (u : InvestmentUpdate) (now : Nat) (db : DB)
        (e : PGError),
      (updateInvestment uid id u now db (some e)).1.error = some e ∧
      (updateInvestment uid id u now db (some e)).1.data = none) ∧
    (∀ (uid id : String) (db : DB) (e : PGError),
      (deleteInvestment uid id db (some e)).1.error = some e) ∧
    (∀ (uid userId : String) (db : DB) (e : PGError),
      (getSavingsGoals uid userId db (some e)).error = some e ∧
      (getSavingsGoals uid userId db (some e)).data = none) ∧
    (∀ (uid : String) (x : NewSavingsGoal) (newId : String) (now : Nat)
        (db : DB) (e : PGError),
      (addSavingsGoal uid x newId now db (some e)).1.error = some e ∧
      (addSavingsGoal uid x newId now db (some e)).1.data = none) ∧
    (∀ (uid id : String) (u : SavingsGoalUpdate) (now : Nat) (db : DB)
        (e : PGError),
      (updateSavingsGoal uid id u now db (some e)).1.error = some e ∧
      (updateSavingsGoal uid id u now db (some e)).1.data = none) ∧
    (∀ (uid id : String) (db : DB) (e : PGError),
      (deleteSavingsGoal uid id db (some e)).1.error = some e) ∧
    (∀ (uid userId : String) (db : DB) (e : PGError),
      (getBudgets uid userId db (some e)).error = some e ∧
      (getBudgets uid userId db (some e)).data = none) ∧
    (∀ (uid : String) (x : NewBudget) (newId : String) (now : Nat) (db : DB)
        (e : PGError),
      (addBudget uid x newId now db (some e)).1.error = some e ∧
      (addBudget uid x newId now db (some e)).1.data = none) ∧
    (∀ (uid id : String) (u : BudgetUpdate) (now : Nat) (db : DB)
        (e : PGError),
      (updateBudget uid id u now db (some e)).1.error = some e ∧
      (updateBudget uid id u now db (some e)).1.data = none) ∧
    (∀ (uid id : String) (db : DB) (e : PGError),
      (deleteBudget uid id db (some e)).1.error = some e) ∧
    (∀ (uid userId : String) (today : PDate) (db : DB) (e1 e2 : PGError),
      (getMonthlyData uid userId today db (some e1) (some e2)).incomeError =
        some e1 ∧
      (getMonthlyData uid userId today db (some e1) (some e2)).expenseError =
        some e2) ∧
    (∀ (uid userId : String) (db : DB) (e : PGError),
      (getExpensesByCategory uid userId db (some e)).error = some e ∧
      (getExpensesByCategory uid userId db (some e)).data = none) := by
  refine ⟨?_, ?_, ?_, ?_, ?_, ?_, ?_, ?_, ?_, ?_, ?_, ?_, ?_, ?_, ?_, ?_,
    ?_, ?_, ?_, ?_, ?_, ?_, ?_, ?_, ?_, ?_, ?_, ?_, ?_⟩ <;>
    (intros; first | rfl | exact ⟨rfl, rfl⟩)

/-- C5: inserting a budget with a zero or negative limit is rejected by
the CHECK constraint with a constraint-violation error and leaves the
database unchanged, for every user, category and start date; inserting
the limit 10.50 succeeds, the stored `numeric(12,2)` value is exactly
10.50, and a subsequent `getBudgets` fetch under the same user returns a
row carrying exactly 10.50. -/
theorem addBudget_constraint_and_roundtrip :
    ∀ (uid cat : String) (sd : PDate) (newId : String) (now : Nat) (db : DB),
      (∀ q : Rat, q ≤ 0 →
        addBudget uid ⟨uid, cat, q, sd⟩ newId now db none =
          (⟨none, some checkViolation⟩, db)) ∧
      (addBudget uid ⟨uid, cat, 10.50, sd⟩ newId now db none).1.data =
        some ⟨newId, uid, cat, 10.50, sd, now, now⟩ ∧
      (addBudget uid ⟨uid, cat, 10.50, sd⟩ newId now db none).1.error =
        none ∧
      (∃ l, (getBudgets uid uid
          ((addBudget uid ⟨uid, cat, 10.50, sd⟩ newId now db none).2)
          none).data = some l ∧
        (⟨newId, uid, cat, 10.50, sd, now, now⟩ : Budget) ∈ l ∧
        (⟨newId, uid, cat, 10.50, sd, now, now⟩ : Budget).budget_limit =
          10.50) := by
  intro uid cat sd newId now db
  have hb : (0 : Rat) < 10.50 := by norm_num
  have key : addBudget uid ⟨uid, cat, 10.50, sd⟩ newId now db none =
      (⟨some ⟨newId, uid, cat, 10.50, sd, now, now⟩, none⟩,
       { db with budgets :=
          db.budgets ++ [⟨newId, uid, cat, 10.50, sd, now, now⟩] }) := by
    simp [addBudget, tableInsert, roundCents_ten_fifty, budgetCheck, hb]
  refine ⟨?_, ?_, ?_, ?_⟩
  · intro q hq
    have hc : ¬ (0 : Rat) < roundCents q := not_lt.mpr (roundCents_nonpos q hq)
    simp [addBudget, tableInsert, budgetCheck, hc]
  · rw [key]
  · rw [key]
  · rw [key]
    refine ⟨_, rfl, ?_, by norm_num⟩
    rw [mem_orderByDesc, mem_rlsSelect]
    exact ⟨List.mem_append_right _ (List.mem_singleton_self _), rfl, by simp⟩

/-- Closed instance of `addBudget_constraint_and_roundtrip`: creating a
budget with limit 0 on an empty database fails with the
constraint-violation error and persists nothing. -/
theorem addBudget_constraint_witness :
    addBudget "u" ⟨"u", "food", 0, ⟨2026, 1, 1⟩⟩ "b1" 5
      ⟨[], [], [], [], [], []⟩ none =
      (⟨none, some checkViolation⟩, ⟨[], [], [], [], [], []⟩) :=
  (addBudget_constraint_and_roundtrip "u" "food" ⟨2026, 1, 1⟩ "b1" 5
    ⟨[], [], [], [], [], []⟩).1 0 (by norm_num)

theorem singleOf_data_mem (l : List ρ) (r : ρ) (h : (singleOf l).1 = some r) :
    r ∈ l := by
  match l with
  | [] => simp [singleOf] at h
  | [x] =>
    simp [singleOf] at h
    subst h
    exact List.mem_singleton_self x
  | x :: y :: t => simp [singleOf] at h

theorem filter_map_ite (c p : α → Bool) (f : α → α) (rows : List α)
    (h : ∀ x ∈ rows, c x = true → p x = false ∧ p (f x) = false) :
    (rows.map fun x => if c x then f x else x).filter p = rows.filter p := by
  induction rows with
  | nil => rfl
  | cons a t ih =>
    have ht : ∀ x ∈ t, c x = true → p x = false ∧ p (f x) = false :=
      fun x hx => h x (List.mem_cons_of_mem a hx)
    cases hca : c a with
    | true =>
      obtain ⟨hpa, hpfa⟩ := h a (List.mem_cons_self a t) hca
      simp [List.filter_cons, hca, hpa, hpfa, ih ht]
    | false =>
      simp [List.filter_cons, hca, ih ht]

theorem filter_filter_of (keep p : α → Bool) (l : List α)
    (h : ∀ x, p x = true → keep x = true) :
    (l.filter keep).filter p = l.filter p := by
  induction l with
  | nil => rfl
  | cons a t ih =>
    cases hpa : p a with
    | true =>
      have hk := h a hpa
      simp [List.filter_cons, hk, hpa, ih]
    | false =>
      cases hk : keep a <;> simp [List.filter_cons, hk, hpa, ih]

theorem tableUpdate_preserves_foreign (uid : String) (getId owner : ρ → String)
    (check : ρ → Bool) (f : ρ → ρ) (id : String) (rows : List ρ)
    (p : ρ → Bool) (hp : ∀ x, p x = true → owner x ≠ uid) :
    ((tableUpdate uid getId owner check f id rows).2).filter p =
      rows.filter p := by
  simp only [tableUpdate]
  split
  · rfl
  · split
    · rfl
    · rename_i hany
      apply filter_map_ite
      intro x hx hhit
      have hown : owner x = uid := by
        have := (Bool.and_eq_true _ _).mp hhit
        exact beq_iff_eq.mp this.2
      have hfown : owner (f x) = uid := by
        have hmem : f x ∈ (rows.filter
            (fun r => getId r == id && owner r == uid)).map f :=
          List.mem_map_of_mem f (List.mem_filter.mpr ⟨hx, hhit⟩)
        have := List.any_eq_false.mp (eq_false_of_ne_true hany) _ hmem
        simpa using this
      constructor
      · cases hpx : p x with
        | true => exact absurd hown (hp x hpx)
        | false => rfl
      · cases hpfx : p (f x) with
        | true => exact absurd hfown (hp (f x) hpfx)
        | false => rfl

theorem tableUpdate_data_owner (uid : String) (getId owner : ρ → String)
    (check : ρ → Bool) (f : ρ → ρ) (id : String) (rows : List ρ) (r : ρ)
    (h : ((tableUpdate uid getId owner check f id rows).1).1 = some r) :
    owner r = uid := by
  simp only [tableUpdate] at h
  split at h
  · simp at h
  · split at h
    · simp at h
    · rename_i hany
      have hmem := singleOf_data_mem _ _ h
      have := List.any_eq_false.mp (eq_false_of_ne_true hany) _ hmem
      simpa using this

theorem tableInsert_foreign (uid : String) (owner : ρ → String)
    (check : ρ → Bool) (newRow : ρ) (rows : List ρ)
    (h : owner newRow ≠ uid) :
    ((tableInsert uid owner check newRow rows).1).1 = none ∧
    (tableInsert uid owner check newRow rows).2 = rows := by
  have hb : (owner newRow == uid) = false := beq_eq_false_iff_ne.mpr h
  cases hc : check newRow <;> simp [tableInsert, hc, hb]

theorem tableDelete_preserves_foreign (uid : String)
    (getId owner : ρ → String) (id : String) (rows : List ρ)
    (p : ρ → Bool) (hp : ∀ x, p x = true → owner x ≠ uid) :
    (tableDelete uid getId owner id rows).filter p = rows.filter p := by
  apply filter_filter_of
  intro x hpx
  have hne := hp x hpx
  have : (owner x == uid) = false := beq_eq_false_iff_ne.mpr hne
  simp [this]

/-- C1: for two distinct users A and B, no façade call executed with A's
authenticated identity ever returns, modifies or removes a record owned
by B: reads only surface A-owned rows (or nothing), writes to B-owned
records are rejected or touch nothing, and the analytics projections
derive only from rows not owned by B. -/
theorem facade_user_isolation (A B : String) (hAB : A ≠ B) :
    UserIsolation A B := by
  have hpInc : ∀ x : Income, (x.user_id == B) = true → x.user_id ≠ A :=
    fun x hx hA => hAB (hA.symm.trans (beq_iff_eq.mp hx))
  have hpExp : ∀ x : Expense, (x.user_id == B) = true → x.user_id ≠ A :=
    fun x hx hA => hAB (hA.symm.trans (beq_iff_eq.mp hx))
  have hpInv : ∀ x : Investment, (x.user_id == B) = true → x.user_id ≠ A :=
    fun x hx hA => hAB (hA.symm.trans (beq_iff_eq.mp hx))
  have hpSav : ∀ x : SavingsGoal, (x.user_id == B) = true → x.user_id ≠ A :=
    fun x hx hA => hAB (hA.symm.trans (beq_iff_eq.mp hx))
  have hpBud : ∀ x : Budget, (x.user_id == B) = true → x.user_id ≠ A :=
    fun x hx hA => hAB (hA.symm.trans (beq_iff_eq.mp hx))
  have hpPro : ∀ x : UserProfile, (x.id == B) = true → x.id ≠ A :=
    fun x hx hA => hAB (hA.symm.trans (beq_iff_eq.mp hx))
  refine ⟨?_, ?_, ?_, ?_, ?_, ?_, ?_, ?_, ?_, ?_, ?_, ?_, ?_, ?_, ?_, ?_,
    ?_, ?_, ?_, ?_, ?_, ?_, ?_, ?_⟩
  · intro userId db fail l r hd hr
    cases fail with
    | some e => simp [getIncome] at hd
    | none =>
      simp only [getIncome, Option.some.injEq] at hd
      subst hd
      have h2 := (mem_rlsSelect _ _ _ _ _).mp ((mem_orderByDesc _ _ _ _).mp hr)
      exact fun hB => hAB (h2.2.1.symm.trans hB)
  · intro userId db fail l r hd hr
    cases fail with
    | some e => simp [getExpenses] at hd
    | none =>
      simp only [getExpenses, Option.some.injEq] at hd
      subst hd
      have h2 := (mem_rlsSelect _ _ _ _ _).mp ((mem_orderByDesc _ _ _ _).mp hr)
      exact fun hB => hAB (h2.2.1.symm.trans hB)
  · intro userId db fail l r hd hr
    cases fail with
    | some e => simp [getInvestments] at hd
    | none =>
      simp only [getInvestments, Option.some.injEq] at hd
      subst hd
      have h2 := (mem_rlsSelect _ _ _ _ _).mp ((mem_orderByDesc _ _ _ _).mp hr)
      exact fun hB => hAB (h2.2.1.symm.trans hB)
  · intro userId db fail l r hd hr
    cases fail with
    | some e => simp [getSavingsGoals] at hd
    | none =>
      simp only [getSavingsGoals, Option.some.injEq] at hd
      subst hd
      have h2 := (mem_rlsSelect _ _ _ _ _).mp ((mem_orderByDesc _ _ _ _).mp hr)
      exact fun hB => hAB (h2.2.1.symm.trans hB)
  · intro userId db fail l r hd hr
    cases fail with
    | some e => simp [getBudgets] at hd
    | none =>
      simp only [getBudgets, Option.some.injEq] at hd
      subst hd
      have h2 := (mem_rlsSelect _ _ _ _ _).mp ((mem_orderByDesc _ _ _ _).mp hr)
      exact fun hB => hAB (h2.2.1.symm.trans hB)
  · intro userId db fail p hd
    cases fail with
    | some e => simp [getUserProfile] at hd
    | none =>
      simp only [getUserProfile] at hd
      have h2 := (mem_rlsSelect _ _ _ _ _).mp (singleOf_data_mem _ _ hd)
      exact fun hB => hAB (h2.2.1.symm.trans hB)
  · intro x newId now db fail hxB
    cases fail with
    | some e => exact ⟨rfl, rfl⟩
    | none =>
      have hne : x.user_id ≠ A := fun h => hAB (h.symm.trans hxB)
      obtain ⟨h1, h2⟩ := tableInsert_foreign A (fun r : Income => r.user_id)
        (fun _ => true) ⟨newId, x.user_id, x.amount, x.source, x.date,
          x.category, x.notes, now, now⟩ db.income hne
      exact ⟨h1, by simp only [addIncome]; rw [h2]⟩
  · intro x newId now db fail hxB
    cases fail with
    | some e => exact ⟨rfl, rfl⟩
    | none =>
      have hne : x.user_id ≠ A := fun h => hAB (h.symm.trans hxB)
      obtain ⟨h1, h2⟩ := tableInsert_foreign A (fun r : Expense => r.user_id)
        (fun _ => true) ⟨newId, x.user_id, x.amount, x.vendor, x.date,
          x.category, x.notes, now, now⟩ db.expenses hne
      exact ⟨h1, by simp only [addExpense]; rw [h2]⟩
  · intro x newId now db fail hxB
    cases fail with
    | some e => exact ⟨rfl, rfl⟩
    | none =>
      have hne : x.user_id ≠ A := fun h => hAB (h.symm.trans hxB)
      obtain ⟨h1, h2⟩ := tableInsert_foreign A
        (fun r : Investment => r.user_id) (fun _ => true)
        ⟨newId, x.user_id, x.type, x.amount, x.date, x.platform,
          x.notes, now, now⟩ db.investments hne
      exact ⟨h1, by simp only [addInvestment]; rw [h2]⟩
  · intro x newId now db fail hxB
    cases fail with
    | some e => exact ⟨rfl, rfl⟩
    | none =>
      have hne : x.user_id ≠ A := fun h => hAB (h.symm.trans hxB)
      obtain ⟨h1, h2⟩ := tableInsert_foreign A
        (fun r : SavingsGoal => r.user_id) (fun _ => true)
        ⟨newId, x.user_id, x.goal_name, x.target_amount, x.deadline,
          x.current_amount, x.notes, now, now⟩ db.savings hne
      exact ⟨h1, by simp only [addSavingsGoal]; rw [h2]⟩
  · intro x newId now db fail hxB
    cases fail with
    | some e => exact ⟨rfl, rfl⟩
    | none =>
      have hne : x.user_id ≠ A := fun h => hAB (h.symm.trans hxB)
      obtain ⟨h1, h2⟩ := tableInsert_foreign A (fun r : Budget => r.user_id)
        budgetCheck ⟨newId, x.user_id, x.category,
          roundCents x.budget_limit, x.start_date, now, now⟩ db.budgets hne
      exact ⟨h1, by simp only [addBudget]; rw [h2]⟩
  · intro id u now db fail
    cases fail with
    | some e => exact ⟨rfl, fun r h => by simp [updateIncome] at h⟩
    | none =>
      refine ⟨?_, fun r h => ?_⟩
      · simp only [updateIncome]
        exact tableUpdate_preserves_foreign A (fun r => r.id)
          (fun r => r.user_id) (fun _ => true) (applyIncomeUpdate u now) id
          db.income (fun x => x.user_id == B) hpInc
      · simp only [updateIncome] at h
        have hA := tableUpdate_data_owner A (fun r => r.id)
          (fun r => r.user_id) (fun _ => true) (applyIncomeUpdate u now) id
          db.income r h
        exact fun hB => hAB (hA.symm.trans hB)
  · intro id u now db fail
    cases fail with
    | some e => exact ⟨rfl, fun r h => by simp [updateExpense] at h⟩
    | none =>
      refine ⟨?_, fun r h => ?_⟩
      · simp only [updateExpense]
        exact tableUpdate_preserves_foreign A (fun r => r.id)
          (fun r => r.user_id) (fun _ => true) (applyExpenseUpdate u now) id
          db.expenses (fun x => x.user_id == B) hpExp
      · simp only [updateExpense] at h
        have hA := tableUpdate_data_owner A (fun r => r.id)
          (fun r => r.user_id) (fun _ => true) (applyExpenseUpdate u now) id
          db.expenses r h
        exact fun hB => hAB (hA.symm.trans hB)
  · intro id u now db fail
    cases fail with
    | some e => exact ⟨rfl, fun r h => by simp [updateInvestment] at h⟩
    | none =>
      refine ⟨?_, fun r h => ?_⟩
      · simp only [updateInvestment]
        exact tableUpdate_preserves_foreign A (fun r => r.id)
          (fun r => r.user_id) (fun _ => true) (applyInvestmentUpdate u now)
          id db.investments (fun x => x.user_id == B) hpInv
      · simp only [updateInvestment] at h
        have hA := tableUpdate_data_owner A (fun r => r.id)
          (fun r => r.user_id) (fun _ => true) (applyInvestmentUpdate u now)
          id db.investments r h
        exact fun hB => hAB (hA.symm.trans hB)
  · intro id u now db fail
    cases fail with
    | some e => exact ⟨rfl, fun r h => by simp [updateSavingsGoal] at h⟩
    | none =>
      refine ⟨?_, fun r h => ?_⟩
      · simp only [updateSavingsGoal]
        exact tableUpdate_preserves_foreign A (fun r => r.id)
          (fun r => r.user_id) (fun _ => true) (applySavingsGoalUpdate u now)
          id db.savings (fun x => x.user_id == B) hpSav
      · simp only [updateSavingsGoal] at h
        have hA := tableUpdate_data_owner A (fun r => r.id)
          (fun r => r.user_id) (fun _ => true) (applySavingsGoalUpdate u now)
          id db.savings r h
        exact fun hB => hAB (hA.symm.trans hB)
  · intro id u now db fail
    cases fail with
    | some e => exact ⟨rfl, fun r h => by simp [updateBudget] at h⟩
    | none =>
      refine ⟨?_, fun r h => ?_⟩
      · simp only [updateBudget]
        exact tableUpdate_preserves_foreign A (fun r => r.id)
          (fun r => r.user_id) budgetCheck (applyBudgetUpdate u now) id
          db.budgets (fun x => x.user_id == B) hpBud
      · simp only [updateBudget] at h
        have hA := tableUpdate_data_owner A (fun r => r.id)
          (fun r => r.user_id) budgetCheck (applyBudgetUpdate u now) id
          db.budgets r h
        exact fun hB => hAB (hA.symm.trans hB)
  · intro userId u now db fail
    cases fail with
    | some e => exact ⟨rfl, fun r h => by simp [updateUserProfile] at h⟩
    | none =>
      refine ⟨?_, fun r h => ?_⟩
      · simp only [updateUserProfile]
        exact tableUpdate_preserves_foreign A (fun p => p.id)
          (fun p => p.id) (fun _ => true) (applyUserProfileUpdate u now)
          userId db.user_profiles (fun x => x.id == B) hpPro
      · simp only [updateUserProfile] at h
        have hA := tableUpdate_data_owner A (fun p => p.id) (fun p => p.id)
          (fun _ => true) (applyUserProfileUpdate u now) userId
          db.user_profiles r h
        exact fun hB => hAB (hA.symm.trans hB)
  · intro id db fail
    cases fail with
    | some e => rfl
    | none =>
      simp only [deleteIncome]
      exact tableDelete_preserves_foreign A (fun r => r.id)
        (fun r => r.user_id) id db.income (fun x => x.user_id == B) hpInc
  · intro id db fail
    cases fail with
    | some e => rfl
    | none =>
      simp only [deleteExpense]
      exact tableDelete_preserves_foreign A (fun r => r.id)
        (fun r => r.user_id) id db.expenses (fun x => x.user_id == B) hpExp
  · intro id db fail
    cases fail with
    | some e => rfl
    | none =>
      simp only [deleteInvestment]
      exact tableDelete_preserves_foreign A (fun r => r.id)
        (fun r => r.user_id) id db.investments (fun x => x.user_id == B)
        hpInv
  · intro id db fail
    cases fail with
    | some e => rfl
    | none =>
      simp only [deleteSavingsGoal]
      exact tableDelete_preserves_foreign A (fun r => r.id)
        (fun r => r.user_id) id db.savings (fun x => x.user_id == B) hpSav
  · intro id db fail
    cases fail with
    | some e => rfl
    | none =>
      simp only [deleteBudget]
      exact tableDelete_preserves_foreign A (fun r => r.id)
        (fun r => r.user_id) id db.budgets (fun x => x.user_id == B) hpBud
  · intro userId today db iF eF l p
    constructor
    · intro hd hp
      cases iF with
      | some e => simp [getMonthlyData] at hd
      | none =>
        simp only [getMonthlyData, Option.some.injEq] at hd
        subst hd
        simp only [rlsSelect, List.mem_map, List.mem_filter,
          Bool.and_eq_true, beq_iff_eq] at hp
        obtain ⟨r, ⟨hmem, hA, _, _⟩, hpr⟩ := hp
        exact ⟨r, hmem, fun hB => hAB (hA.symm.trans hB), hpr.symm⟩
    · intro hd hp
      cases eF with
      | some e => simp [getMonthlyData] at hd
      | none =>
        simp only [getMonthlyData, Option.some.injEq] at hd
        subst hd
        simp only [rlsSelect, List.mem_map, List.mem_filter,
          Bool.and_eq_true, beq_iff_eq] at hp
        obtain ⟨r, ⟨hmem, hA, _, _⟩, hpr⟩ := hp
        exact ⟨r, hmem, fun hB => hAB (hA.symm.trans hB), hpr.symm⟩
  · intro userId db fail l p hd hp
    cases fail with
    | some e => simp [getExpensesByCategory] at hd
    | none =>
      simp only [getExpensesByCategory, Option.some.injEq] at hd
      subst hd
      simp only [rlsSelect, List.mem_map, List.mem_filter,
        Bool.and_eq_true, beq_iff_eq] at hp
      obtain ⟨r, ⟨hmem, hA, _⟩, hpr⟩ := hp
      exact ⟨r, hmem, fun hB => hAB (hA.symm.trans hB), hpr.symm⟩

/-- Closed instance of `facade_user_isolation` at the two distinct users
alice and bob. -/
theorem facade_user_isolation_witness : UserIsolation "alice" "bob" :=
  facade_user_isolation "alice" "bob" (by decide)

theorem map_ite_id (c : α → Bool) (f : α → α) (l : List α)
    (h : ∀ x ∈ l, c x = false) :
    (l.map fun x => if c x then f x else x) = l := by
  induction l with
  | nil => rfl
  | cons a t ih =>
    have ha := h a (List.mem_cons_self a t)
    simp [ha, ih (fun x hx => h x (List.mem_cons_of_mem a hx))]

theorem filter_eq_nil_of (c : α → Bool) (l : List α)
    (h : ∀ x ∈ l, c x = false) : l.filter c = [] :=
  List.filter_eq_nil_iff.mpr (fun x hx => by simp [h x hx])

theorem tableUpdate_found (uid : String) (getId owner : ρ → String)
    (check : ρ → Bool) (f : ρ → ρ) (id : String) (rows : List ρ) (r : ρ)
    (hpw : rows.Pairwise (fun a b => getId a ≠ getId b))
    (hmem : r ∈ rows) (hid : getId r = id) (hown : owner r = uid)
    (hchk : check (f r) = true) (hown2 : owner (f r) = uid) :
    (tableUpdate uid getId owner check f id rows).1 = (some (f r), none) ∧
    ∃ l1 l2, rows = l1 ++ r :: l2 ∧
      (tableUpdate uid getId owner check f id rows).2 = l1 ++ f r :: l2 := by
  obtain ⟨l1, l2, hsplit⟩ := List.append_of_mem hmem
  subst hsplit
  rw [List.pairwise_append] at hpw
  obtain ⟨hp1, hp2, hp12⟩ := hpw
  have hl1 : ∀ x ∈ l1,
      (getId x == id && owner x == uid) = false := by
    intro x hx
    have hne := hp12 x hx r (List.mem_cons_self r l2)
    have : (getId x == id) = false :=
      beq_eq_false_iff_ne.mpr (fun he => hne (he.trans hid.symm))
    simp [this]
  have hl2 : ∀ x ∈ l2,
      (getId x == id && owner x == uid) = false := by
    intro x hx
    have hne := (List.pairwise_cons.mp hp2).1 x hx
    have : (getId x == id) = false :=
      beq_eq_false_iff_ne.mpr (fun he => hne (he.trans hid.symm).symm)
    simp [this]
  have hhitr : (getId r == id && owner r == uid) = true := by
    simp [beq_iff_eq, hid, hown]
  have hfilter : (l1 ++ r :: l2).filter
      (fun x => getId x == id && owner x == uid) = [r] := by
    rw [List.filter_append, List.filter_cons]
    rw [filter_eq_nil_of _ _ hl1, filter_eq_nil_of _ _ hl2]
    simp [hhitr]
  have hmap : ((l1 ++ r :: l2).map
      (fun x => if getId x == id && owner x == uid then f x else x)) =
      l1 ++ f r :: l2 := by
    rw [List.map_append, List.map_cons]
    rw [map_ite_id _ _ _ hl1, map_ite_id _ _ _ hl2]
    simp [hhitr]
  have hany1 : ([f r].any fun x => !check x) = false := by simp [hchk]
  have hany2 : ([f r].any fun x => !(owner x == uid)) = false := by
    simp [hown2]
  constructor
  · simp only [tableUpdate, hfilter, List.map_cons, List.map_nil, hany1,
      hany2, Bool.false_eq_true, if_false, singleOf]
  · refine ⟨l1, l2, rfl, ?_⟩
    simp only [tableUpdate, hfilter, List.map_cons, List.map_nil, hany1,
      hany2, Bool.false_eq_true, if_false, hmap]

/-- C2 (counterexample): `update` with a partial that names the primary
key rewrites it — `Partial<E>` includes `id`, the PATCH body is applied
verbatim and nothing in the schema makes `id` immutable.  Updating the
row `i1` with `{ id: "i2" }` leaves the table holding a row whose primary
key is `i2`, and the returned row carries `i2` as well, so the claim that
the primary key always remains unchanged fails on this input. -/
theorem updateIncome_changes_primary_key :
    ((updateIncome "alice" "i1" renameIdUpdate 20 aliceIncomeDB
        none).2.income.map (fun r => r.id)) = ["i2"] ∧
    ((updateIncome "alice" "i1" renameIdUpdate 20 aliceIncomeDB
        none).1.data.map (fun r => r.id)) = some "i2" ∧
    aliceIncomeDB.income.map (fun r => r.id) = ["i1"] ∧
    ("i2" : String) ≠ "i1" := by
  refine ⟨?_, ?_, rfl, by decide⟩ <;> rfl

/-- C2 (amended): partial updates that do not rename the primary key and
keep the row inside the table's policies change exactly the fields they
name; the primary key and all unnamed fields survive, `updated_at` is
bumped to the strictly larger server time, and no other row moves. -/
theorem update_frame_amended : UpdateFrameOk := by
  refine ⟨?_, ?_, ?_, ?_, ?_, ?_⟩
  · intro uid id u now db r hpw hmem hid hown hunone hown2 hlt
    obtain ⟨hres, l1, l2, hsplit, hpost⟩ := tableUpdate_found uid
      (fun x : Income => x.id) (fun x => x.user_id) (fun _ => true)
      (applyIncomeUpdate u now) id db.income r hpw hmem hid hown rfl hown2
    refine ⟨by simp only [updateIncome]; rw [hres],
      by simp [applyIncomeUpdate, hunone],
      fun h => by simp [applyIncomeUpdate, h],
      fun h => by simp [applyIncomeUpdate, h],
      fun h => by simp [applyIncomeUpdate, h],
      fun h => by simp [applyIncomeUpdate, h],
      fun h => by simp [applyIncomeUpdate, h],
      fun h => by simp [applyIncomeUpdate, h],
      fun h => by simp [applyIncomeUpdate, h],
      by simpa [applyIncomeUpdate] using hlt,
      l1, l2, hsplit, by simp only [updateIncome]; exact hpost⟩
  · intro uid id u now db r hpw hmem hid hown hunone hown2 hlt
    obtain ⟨hres, l1, l2, hsplit, hpost⟩ := tableUpdate_found uid
      (fun x : Expense => x.id) (fun x => x.user_id) (fun _ => true)
      (applyExpenseUpdate u now) id db.expenses r hpw hmem hid hown rfl hown2
    refine ⟨by simp only [updateExpense]; rw [hres],
      by simp [applyExpenseUpdate, hunone],
      fun h => by simp [applyExpenseUpdate, h],
      fun h => by simp [applyExpenseUpdate, h],
      fun h => by simp [applyExpenseUpdate, h],
      fun h => by simp [applyExpenseUpdate, h],
      fun h => by simp [applyExpenseUpdate, h],
      fun h => by simp [applyExpenseUpdate, h],
      fun h => by simp [applyExpenseUpdate, h],
      by simpa [applyExpenseUpdate] using hlt,
      l1, l2, hsplit, by simp only [updateExpense]; exact hpost⟩
  · intro uid id u now db r hpw hmem hid hown hunone hown2 hlt
    obtain ⟨hres, l1, l2, hsplit, hpost⟩ := tableUpdate_found uid
      (fun x : Investment => x.id) (fun x => x.user_id) (fun _ => true)
      (applyInvestmentUpdate u now) id db.investments r hpw hmem hid hown
      rfl hown2
    refine ⟨by simp only [updateInvestment]; rw [hres],
      by simp [applyInvestmentUpdate, hunone],
      fun h => by simp [applyInvestmentUpdate, h],
      fun h => by simp [applyInvestmentUpdate, h],
      fun h => by simp [applyInvestmentUpdate, h],
      fun h => by simp [applyInvestmentUpdate, h],
      fun h => by simp [applyInvestmentUpdate, h],
      fun h => by simp [applyInvestmentUpdate, h],
      fun h => by simp [applyInvestmentUpdate, h],
      by simpa [applyInvestmentUpdate] using hlt,
      l1, l2, hsplit, by simp only [updateInvestment]; exact hpost⟩
  · intro uid id u now db r hpw hmem hid hown hunone hown2 hlt
    obtain ⟨hres, l1, l2, hsplit, hpost⟩ := tableUpdate_found uid
      (fun x : SavingsGoal => x.id) (fun x => x.user_id) (fun _ => true)
      (applySavingsGoalUpdate u now) id db.savings r hpw hmem hid hown
      rfl hown2
    refine ⟨by simp only [updateSavingsGoal]; rw [hres],
      by simp [applySavingsGoalUpdate, hunone],
      fun h => by simp [applySavingsGoalUpdate, h],
      fun h => by simp [applySavingsGoalUpdate, h],
      fun h => by simp [applySavingsGoalUpdate, h],
      fun h => by simp [applySavingsGoalUpdate, h],
      fun h => by simp [applySavingsGoalUpdate, h],
      fun h => by simp [applySavingsGoalUpdate, h],
      fun h => by simp [applySavingsGoalUpdate, h],
      by simpa [applySavingsGoalUpdate] using hlt,
      l1, l2, hsplit, by simp only [updateSavingsGoal]; exact hpost⟩
  · intro uid id u now db r hpw hmem hid hown hunone hown2 hchk hlt
    obtain ⟨hres, l1, l2, hsplit, hpost⟩ := tableUpdate_found uid
      (fun x : Budget => x.id) (fun x => x.user_id) budgetCheck
      (applyBudgetUpdate u now) id db.budgets r hpw hmem hid hown hchk hown2
    refine ⟨by simp only [updateBudget]; rw [hres],
      by simp [applyBudgetUpdate, hunone],
      fun h => by simp [applyBudgetUpdate, h],
      fun h => by simp [applyBudgetUpdate, h],
      fun h => by simp [applyBudgetUpdate, h],
      fun h => by simp [applyBudgetUpdate, h],
      fun h => by simp [applyBudgetUpdate, h],
      by simpa [applyBudgetUpdate] using hlt,
      l1, l2, hsplit, by simp only [updateBudget]; exact hpost⟩
  · intro uid userId u now db r hpw hmem hid hown hunone hlt
    have hown2 : (applyUserProfileUpdate u now r).id = uid := by
      simp [applyUserProfileUpdate, hunone, hown]
    obtain ⟨hres, l1, l2, hsplit, hpost⟩ := tableUpdate_found uid
      (fun p : UserProfile => p.id) (fun p => p.id) (fun _ => true)
      (applyUserProfileUpdate u now) userId db.user_profiles r hpw hmem
      hid hown rfl hown2
    refine ⟨by simp only [updateUserProfile]; rw [hres],
      by simp [applyUserProfileUpdate, hunone],
      fun h => by simp [applyUserProfileUpdate, h],
      fun h => by simp [applyUserProfileUpdate, h],
      fun h => by simp [applyUserProfileUpdate, h],
      by simpa [applyUserProfileUpdate] using hlt,
      l1, l2, hsplit, by simp only [updateUserProfile]; exact hpost⟩

/-- Closed instance of `update_frame_amended`: the empty partial update
of alice's income row returns exactly the trigger-refreshed row. -/
theorem update_frame_amended_witness :
    (updateIncome "alice" "i1" emptyIncomeUpdate 20 aliceIncomeDB
      none).1.data =
      some (applyIncomeUpdate emptyIncomeUpdate 20 aliceIncomeRow) :=
  (update_frame_amended.1 "alice" "i1" emptyIncomeUpdate 20 aliceIncomeDB
    aliceIncomeRow (by simp [aliceIncomeDB])
    (by simp [aliceIncomeDB]) rfl rfl rfl rfl (by decide)).1
